import Mathlib

/-!
Verification of the Artwork-Provenance repository core: a shallow embedding of
the RDF store service (`backend/app/services/rdf_store.py`) and of the EDM data
importer (`backend/app/services/data_importer.py`), together with theorems
settling the frozen specification claims.

Modelling conventions:
* rdflib `Graph` is a set of subject/predicate/object triples; we model it as a
  duplicate-free list (`gadd` inserts only when absent, as rdflib `add` does).
* `URIRef` and `Literal` values are modelled by the inductive `Term`.  Minted
  node identifiers (`str(uuid4())` in Python) are modelled by a counter carried
  in the importer state: `Term.minted kind n` stands for the URI string
  `base_uri ++ kind ++ "/" ++ n`, and `Term.derived b p v` stands for the URI
  `str(b) ++ "/" ++ p ++ "/" ++ quote(v)` built by `add_artwork` for the
  identifier and title sub-nodes.  `uuid4` collisions are impossible for the
  counter, matching the practical guarantee of the Python code.
* Python string falsiness (`if not name:`) is the test against `""`; optional
  `rdf:resource` attributes (the `get_attr` results, never empty when present)
  are `Option String`.
* String functions are implemented over `List Char` so that all definitions
  evaluate by kernel reduction.
-/

namespace ArtworkProvenance

/-- Lower-casing as Python `str.lower` behaves on the ASCII letters occurring
in the data and in the keyword table (`Char.toLower` maps only `A`-`Z`). -/
def lcase (s : String) : String := ⟨s.data.map Char.toLower⟩

/-- `leadMatch s pat` is true when `pat` is an initial segment of `s`. -/
def leadMatch : List Char → List Char → Bool
  | _, [] => true
  | [], _ :: _ => false
  | c :: cs, d :: ds => c == d && leadMatch cs ds

/-- `hasSub pat s` is true when `pat` occurs contiguously inside `s`
(SPARQL `CONTAINS`, Python `in` on strings). -/
def hasSub (pat : List Char) : List Char → Bool
  | [] => pat.isEmpty
  | c :: rest => leadMatch (c :: rest) pat || hasSub pat rest

/-- SPARQL `CONTAINS(s, pat)` / Python `pat in s`. -/
def strContains (s pat : String) : Bool := hasSub pat.data s.data

/-- Codepoint-lexicographic comparison of strings, the order Python and the
SPARQL engine use for plain string literals. -/
def charsLE : List Char → List Char → Bool
  | [], _ => true
  | _ :: _, [] => false
  | c :: cs, d :: ds =>
    if c = d then charsLE cs ds else decide (c < d)

def strLE (s t : String) : Bool := charsLE s.data t.data

/-- Last `/`-separated component of a string (`uri.split('/')[-1]`). -/
def lastComp (s : String) : String :=
  match s.data.foldl
      (fun (acc : List Char × List Char) c =>
        if c = '/' then (acc.1, []) else (acc.1, acc.2 ++ [c])) (([], []) : List Char × List Char) with
  | (_, cur) => ⟨cur⟩

/-- Association-list lookup, modelling Python dict access
(`self.created_artists[name]`, `TYPE_KEYWORDS.get`). -/
def findKey {α β : Type} [DecidableEq α] (k : α) : List (α × β) → Option β
  | [] => none
  | (a, b) :: rest => if k = a then some b else findKey k rest

/-- RDF terms.  `minted kind n` is the URI `{base_uri}{kind}/{uuid}` with the
uuid modelled by the counter value `n`; `derived b p v` is the sub-node URI
built from a parent URI in `add_artwork`; `uri` is any other `URIRef`; `lit` a
`Literal` with the given lexical form. -/
inductive Term where
  | uri (s : String)
  | minted (kind : String) (id : Nat)
  | derived (base : Term) (path : String) (value : String)
  | lit (s : String)
  deriving DecidableEq

/-- One RDF statement. -/
structure Triple where
  subj : Term
  pred : Term
  obj : Term
  deriving DecidableEq

/-- The rdflib graph: a set of triples, modelled as a duplicate-free list. -/
abbrev Graph := List Triple

/-- rdflib `Graph.add`: set insertion. -/
def gadd (g : Graph) (t : Triple) : Graph := if t ∈ g then g else g ++ [t]

def base_uri : String := "http://arp-greatteam.org/heritage-provenance/"
def crmNS : String := "http://www.cidoc-crm.org/cidoc-crm/"
def provNS : String := "http://www.w3.org/ns/prov#"

/-- CIDOC-CRM vocabulary term (`self.ns['crm']`). -/
def crm (s : String) : Term := .uri (crmNS ++ s)

/-- PROV vocabulary term (`self.ns['prov']`). -/
def provT (s : String) : Term := .uri (provNS ++ s)

def rdfType : Term := .uri "http://www.w3.org/1999/02/22-rdf-syntax-ns#type"
def rdfsLabel : Term := .uri "http://www.w3.org/2000/01/rdf-schema#label"
def owlSameAs : Term := .uri "http://www.w3.org/2002/07/owl#sameAs"
def foafName : Term := .uri "http://xmlns.com/foaf/0.1/name"
def foafDepiction : Term := .uri "http://xmlns.com/foaf/0.1/depiction"

/-- The string form of a term: `str()` of an rdflib `URIRef`/`Literal`. -/
def termStr : Term → String
  | .uri s => s
  | .minted kind n => base_uri ++ kind ++ "/" ++ toString n
  | .derived b p v => termStr b ++ "/" ++ p ++ "/" ++ v
  | .lit s => s

/-- The value passed for `location_data['location']`: the caller in
`_parse_edm_cho` passes the joined text (a Python `str`), while the fallback
inside `_find_or_create_location` is the list `["Unknown Location"]`. -/
inductive LocVal where
  | strVal (s : String)
  | listVal (l : List String)
  deriving DecidableEq

/-- Python falsiness of the location value (`if not location_names:`). -/
def locFalsy : LocVal → Bool
  | .strVal s => s = ""
  | .listVal l => l.isEmpty

/-- Python `location_names[0]`: the first character of a string, the first
element of a list.  (Total function; the empty cases are unreachable after the
falsiness guard.) -/
def locIndexZero : LocVal → String
  | .strVal s =>
    match s.data with
    | [] => ""
    | c :: _ => ⟨[c]⟩
  | .listVal l =>
    match l with
    | [] => ""
    | x :: _ => x

def pyQuoteChar : Char := Char.ofNat 39

/-- Python `str()` of a list of strings (the lexical form rdflib gives
`Literal(["Unknown Location"])`). -/
def pyListStr (l : List String) : String :=
  "[" ++ String.intercalate ", " (l.map (fun s => ⟨pyQuoteChar :: s.data ++ [pyQuoteChar]⟩)) ++ "]"

/-- Lexical form of the label literal stored by `add_location`. -/
def locLex : LocVal → String
  | .strVal s => s
  | .listVal l => pyListStr l

/-! ### RDFStoreService: write operations -/

/-- Fields of `artwork_data` assembled in `_parse_edm_cho`
(`description`, `creationDate` and `dimensions` are carried but not used by
`add_artwork`). -/
structure ArtworkData where
  inventoryNumber : String
  title : String
  description : String
  creationDate : String
  dimensions : String
  imageURL : Option String
  type_uri : Option Term
  subject_uri : Option Term
  material_uri : Option Term
  deriving DecidableEq

/-- `RDFStoreService.add_artwork`.  The nested helpers `add_artwork_id` and
`add_artwork_title` are inlined in statement order. -/
def add_artwork (g : Graph) (artwork_uri : Term) (d : ArtworkData) : Bool × Graph :=
  let g := gadd g ⟨artwork_uri, rdfType, provT "Entity"⟩
  let g := gadd g ⟨artwork_uri, rdfType, crm "E22_Man_Made_Object"⟩
  let idUri := Term.derived artwork_uri "identifier" d.inventoryNumber
  let g := gadd g ⟨idUri, rdfType, crm "E42_Identifier"⟩
  let g := gadd g ⟨idUri, crm "P190_has_symbolic_content", .lit d.inventoryNumber⟩
  let g := gadd g ⟨artwork_uri, crm "P1_is_identified_by", idUri⟩
  let titleUri := Term.derived artwork_uri "title" d.title
  let g := gadd g ⟨titleUri, rdfType, crm "E35_Title"⟩
  let g := gadd g ⟨titleUri, crm "P190_has_symbolic_content", .lit d.title⟩
  let g := gadd g ⟨artwork_uri, crm "P102_has_title", titleUri⟩
  let g := match d.imageURL with
    | some u => gadd g ⟨artwork_uri, foafDepiction, .uri u⟩
    | none => g
  let g := match d.type_uri with
    | some t => gadd g ⟨artwork_uri, crm "P2_has_type", t⟩
    | none => g
  let g := match d.subject_uri with
    | some s => gadd g ⟨artwork_uri, crm "P15_was_influenced_by", s⟩
    | none => g
  let g := match d.material_uri with
    | some m => gadd g ⟨artwork_uri, crm "P45_consists_of", m⟩
    | none => g
  (true, g)

/-- `RDFStoreService.add_entity`. -/
def add_entity (g : Graph) (entity_type : String) (entity_uri : Term)
    (entity_name : String) (entity_link : Option String) : Bool × Graph :=
  let g := match entity_link with
    | some l => gadd g ⟨entity_uri, owlSameAs, .uri l⟩
    | none => g
  if entity_type = "provider" ∨ entity_type = "institute" then
    (true, gadd g ⟨entity_uri, rdfType, provT "Agent"⟩)
  else
    let g := gadd g ⟨entity_uri, rdfsLabel, .lit entity_name⟩
    if entity_type = "type" then
      (true, gadd g ⟨entity_uri, rdfType, crm "E55_Type"⟩)
    else if entity_type = "subject" then
      (true, gadd g ⟨entity_uri, rdfType, crm "E28_Conceptual_Object"⟩)
    else if entity_type = "material" then
      (true, gadd g ⟨entity_uri, rdfType, crm "E57_Material"⟩)
    else
      (true, g)

/-- `RDFStoreService.add_artist`. -/
def add_artist (g : Graph) (artist_uri : Term) (creator : String)
    (creatorULAN : Option String) : Bool × Graph :=
  let g := gadd g ⟨artist_uri, rdfType, provT "Agent"⟩
  let g := gadd g ⟨artist_uri, rdfType, crm "E21_Person"⟩
  let g := gadd g ⟨artist_uri, foafName, .lit creator⟩
  match creatorULAN with
  | some u => (true, gadd g ⟨artist_uri, owlSameAs, .uri u⟩)
  | none => (true, g)

/-- `RDFStoreService.add_location`. -/
def add_location (g : Graph) (location_uri : Term) (location : LocVal)
    (locationTGN : Option String) : Bool × Graph :=
  let g := gadd g ⟨location_uri, rdfType, provT "Location"⟩
  let g := gadd g ⟨location_uri, rdfType, crm "E53_Place"⟩
  let g := gadd g ⟨location_uri, rdfsLabel, .lit (locLex location)⟩
  match locationTGN with
  | some u => (true, gadd g ⟨location_uri, owlSameAs, .uri u⟩)
  | none => (true, g)

/-- Fields of `event_data` assembled in `_parse_edm_cho`. -/
structure EventData where
  kind : String
  artwork_uri : Term
  artist_uri : Term
  location_uri : Term
  date : String
  provider_uri : Option Term
  institute_uri : Option Term
  deriving DecidableEq

/-- `RDFStoreService.add_provenance_event`: statements are added one by one
inside a single `try`.  `URIRef(None)` raises in rdflib, so when the provider
(or institute) reference is `None` the function stops at that statement,
catches the exception, and reports `False`; the statements already added stay
in the graph. -/
def add_provenance_event (g : Graph) (event_uri : Term) (d : EventData) : Bool × Graph :=
  let g := gadd g ⟨event_uri, rdfType, provT "Activity"⟩
  let g := gadd g ⟨event_uri, rdfType, crm "E12_Production"⟩
  let g := gadd g ⟨event_uri, rdfsLabel, .lit d.kind⟩
  let g := gadd g ⟨event_uri, crm "P14_carried_out_by", d.artist_uri⟩
  let g := gadd g ⟨event_uri, crm "P7_took_place_at", d.location_uri⟩
  let g := gadd g ⟨event_uri, crm "P108_has_produced", d.artwork_uri⟩
  let g := gadd g ⟨event_uri, crm "P4_has_time_span", .lit d.date⟩
  match d.provider_uri with
  | none => (false, g)
  | some p =>
    let g := gadd g ⟨event_uri, crm "P109_has_current_or_former_curator", p⟩
    match d.institute_uri with
    | none => (false, g)
    | some i => (true, gadd g ⟨event_uri, crm "P50i_is_currently_held_by", i⟩)

/-! ### DataImporter -/

/-- The mutable state of one `DataImporter` instance together with the graph of
the `RDFStoreService` it writes to.  `counter` drives minting of fresh ids
(the `uuid4` calls); the three caches are the session-scoped dedup registry. -/
structure ImporterState where
  created_artists : List (String × Term)
  created_locations : List (String × Term)
  created_entities : List ((String × Option String) × Term)
  counter : Nat
  graph : Graph
  deriving DecidableEq

/-- A freshly constructed `DataImporter` over an empty store. -/
def freshState : ImporterState :=
  { created_artists := [], created_locations := [], created_entities := [],
    counter := 0, graph := [] }

/-- `DataImporter._find_or_create_artist`. -/
def find_or_create_artist (st : ImporterState) (creator_name : String)
    (creator_ulan : Option String) : Option Term × ImporterState :=
  let creator_name := if creator_name = "" then "Unknown Artist" else creator_name
  match findKey creator_name st.created_artists with
  | some u => (some u, st)
  | none =>
    let artist_uri := Term.minted "artist" st.counter
    let st := { st with counter := st.counter + 1 }
    let r := add_artist st.graph artist_uri creator_name creator_ulan
    if r.1 then
      (some artist_uri,
       { st with graph := r.2,
                 created_artists := (creator_name, artist_uri) :: st.created_artists })
    else
      (none, { st with graph := r.2 })

/-- `DataImporter._find_or_create_location`.  The parameter is annotated
`list` in Python but the caller passes the joined text string, hence the
`LocVal` sum; the cache key is `location_names[0]`. -/
def find_or_create_location (st : ImporterState) (location_names : LocVal)
    (location_tgn : Option String) : Option Term × ImporterState :=
  let location_names := if locFalsy location_names then .listVal ["Unknown Location"] else location_names
  let location_key := locIndexZero location_names
  match findKey location_key st.created_locations with
  | some u => (some u, st)
  | none =>
    let location_uri := Term.minted "location" st.counter
    let st := { st with counter := st.counter + 1 }
    let r := add_location st.graph location_uri location_names location_tgn
    if r.1 then
      (some location_uri,
       { st with graph := r.2,
                 created_locations := (location_key, location_uri) :: st.created_locations })
    else
      (none, { st with graph := r.2 })

/-- `DataImporter._find_or_create_entity`. -/
def find_or_create_entity (st : ImporterState) (entity_type : String)
    (name : String) (link : Option String) : Option Term × ImporterState :=
  let name := if name = "" then "Unknown" else name
  let entity_key := (name, link)
  match findKey entity_key st.created_entities with
  | some u => (some u, st)
  | none =>
    let entity_uri := Term.minted "attributes" st.counter
    let st := { st with counter := st.counter + 1 }
    let r := add_entity st.graph entity_type entity_uri name link
    if r.1 then
      (some entity_uri,
       { st with graph := r.2,
                 created_entities := (entity_key, entity_uri) :: st.created_entities })
    else
      (none, { st with graph := r.2 })

/-- The fields extracted from one `ore:Aggregation` element. -/
structure AggData where
  provider : Option String
  dataProvider : List String
  isShownBy : Option String
  deriving DecidableEq

/-- One `edm:ProvidedCHO` record as seen after XML navigation: for each tag the
list of element texts (`get_text` joins them) and the first `rdf:resource`
attribute when present (`get_attr`, never the empty string).  The matching
aggregation, when any, is already paired. -/
structure RawRecord where
  identifier : List String
  creator : List String
  creatorLink : Option String
  spatial : List String
  spatialLink : Option String
  typeTexts : List String
  typeLink : Option String
  subjectTexts : List String
  subjectLink : Option String
  mediumTexts : List String
  mediumLink : Option String
  title : List String
  description : List String
  created : List String
  extent : List String
  agg : Option AggData
  deriving DecidableEq

/-- `get_text`: join the non-empty element texts with a comma. -/
def getText (xs : List String) : String :=
  String.intercalate ", " (xs.filter (fun s => s ≠ ""))

/-- The outcome of processing one record.  `success` is the boolean the Python
function returns; the remaining fields record, for the theorems, which entity
ids the record resolved or minted (all are local variables of the Python
function). -/
structure RecordOutcome where
  success : Bool
  artistUri : Option Term := none
  locationUri : Option Term := none
  typeUri : Option Term := none
  subjectUri : Option Term := none
  materialUri : Option Term := none
  providerUri : Option Term := none
  instituteUri : Option Term := none
  artworkUri : Option Term := none
  eventUri : Option Term := none
  deriving DecidableEq

/-- `DataImporter._parse_edm_cho`. -/
def parse_edm_cho (st0 : ImporterState) (r : RawRecord) : RecordOutcome × ImporterState :=
  let inventoryNumber := getText r.identifier
  if inventoryNumber = "" then ({ success := false }, st0)
  else
    let ra := find_or_create_artist st0 (getText r.creator) r.creatorLink
    let artist_uri := ra.1
    let rl := find_or_create_location ra.2 (.strVal (getText r.spatial)) r.spatialLink
    let location_uri := rl.1
    let rt := find_or_create_entity rl.2 "type" (getText r.typeTexts) r.typeLink
    let type_uri := rt.1
    let rs := find_or_create_entity rt.2 "subject" (getText r.subjectTexts) r.subjectLink
    let subject_uri := rs.1
    let rm := find_or_create_entity rs.2 "material" (getText r.mediumTexts) r.mediumLink
    let material_uri := rm.1
    let image_url := match r.agg with | some a => a.isShownBy | none => none
    let provider_link := match r.agg with | some a => a.provider | none => none
    let institute_name := match r.agg with | some a => getText a.dataProvider | none => ""
    let rp := match provider_link with
      | some _ => find_or_create_entity rm.2 "provider" "" provider_link
      | none => (none, rm.2)
    let provider_uri := rp.1
    let ri := if institute_name = "" then ((none : Option Term), rp.2)
      else find_or_create_entity rp.2 "institute" institute_name none
    let institute_uri := ri.1
    let st6 := ri.2
    let artwork_uri := Term.minted "artwork" st6.counter
    let st7 := { st6 with counter := st6.counter + 1 }
    let rw := add_artwork st7.graph artwork_uri
      { inventoryNumber := inventoryNumber
        title := getText r.title
        description := getText r.description
        creationDate := getText r.created
        dimensions := getText r.extent
        imageURL := image_url
        type_uri := type_uri
        subject_uri := subject_uri
        material_uri := material_uri }
    let st8 := { st7 with graph := rw.2 }
    let base : RecordOutcome :=
      { success := true, artistUri := artist_uri, locationUri := location_uri,
        typeUri := type_uri, subjectUri := subject_uri, materialUri := material_uri,
        providerUri := provider_uri, instituteUri := institute_uri,
        artworkUri := some artwork_uri }
    if rw.1 = false then ({ base with success := false, artworkUri := none }, st8)
    else
      match artist_uri, location_uri with
      | some a, some l =>
        let event_uri := Term.minted "event" st8.counter
        let st9 := { st8 with counter := st8.counter + 1 }
        let re := add_provenance_event st9.graph event_uri
          { kind := "creation", artwork_uri := artwork_uri, artist_uri := a,
            location_uri := l, date := getText r.created,
            provider_uri := provider_uri, institute_uri := institute_uri }
        ({ base with eventUri := some event_uri }, { st9 with graph := re.2 })
      | _, _ => (base, st8)

/-- The error string appended when a record fails
(`artwork.find(...).text` if the element exists, else `unknown`). -/
def importErrorMsg (r : RawRecord) : String :=
  "Failed to import artwork with identifier: " ++
    (match r.identifier with | [] => "unknown" | s :: _ => s)

/-- The record loop of `import_edm_xml`: returns the imported count, the full
error list, and the final state. -/
def importGo : ImporterState → List RawRecord → Nat × List String × ImporterState
  | st, [] => (0, [], st)
  | st, r :: rest =>
    let p := parse_edm_cho st r
    let rec2 := importGo p.2 rest
    if p.1.success then (rec2.1 + 1, rec2.2.1, rec2.2.2)
    else (rec2.1, importErrorMsg r :: rec2.2.1, rec2.2.2)

/-- The summary dictionary `import_edm_xml` returns. -/
structure ImportResult where
  imported : Nat
  errors : Nat
  error_details : List String
  deriving DecidableEq

/-- `DataImporter.import_edm_xml` on an already-parsed record sequence. -/
def import_edm_xml (st : ImporterState) (rs : List RawRecord) : ImportResult × ImporterState :=
  let go := importGo st rs
  ({ imported := go.1, errors := go.2.1.length, error_details := go.2.1.take 10 }, go.2.2)

/-! ### RDFStoreService: the artwork list query -/

/-- The static bilingual keyword table `TYPE_KEYWORDS`. -/
def TYPE_KEYWORDS : List (String × List String) := [
  ("drawing", ["desen", "drawing", "schiță", "schita", "sketch", "creion", "pencil", "cărbune", "charcoal", "tuș", "ink", "pastel", "grafică", "graphic"]),
  ("print", ["gravură", "gravura", "print", "litografie", "lithograph", "acvaforte", "etching", "xilogravură", "woodcut", "stampă", "serigrafie"]),
  ("photograph", ["fotografie", "fotografia", "photograph", "photo", "foto", "negativ", "negative", "daguerreotype"]),
  ("manuscript", ["manuscris", "manuscript", "document", "scrisoare", "letter", "incunabul", "carte"]),
  ("installation", ["instalație", "instalatie", "installation"]),
  ("artifact", ["artefact", "artifact", "ceramică", "ceramic", "pottery", "porțelan", "textil", "textile", "covor", "carpet", "tapiserie", "monedă", "coin", "bijuterie", "jewelry", "mobilier", "furniture", "vas", "vessel"]),
  ("sculpture", ["sculptură", "sculptura", "sculpture", "statuie", "statue", "bust", "relief", "bronz", "bronze", "marmură", "marble", "ronde-bosse"]),
  ("painting", ["pictură", "pictura", "painting", "ulei", "oil", "pânză", "panza", "canvas"])
]

/-- The optional filters of `get_all_artworks`.  The Python values are URI
strings interpolated into the query as IRIs; we carry the resulting terms. -/
structure Filters where
  type : Option String := none
  material_uri : Option Term := none
  subject_uri : Option Term := none
  artist_uri : Option Term := none
  location_uri : Option Term := none

/-- The disjunction `CONTAINS(LCASE(?typeLabel), k1) || ...` built from the
keyword expansion `TYPE_KEYWORDS.get(filters["type"].lower(), [...])`. -/
def typeFilterMatch (type_filter : String) (label : String) : Bool :=
  let type_key := lcase type_filter
  let keywords := (findKey type_key TYPE_KEYWORDS).getD [type_key]
  keywords.any (fun k => strContains (lcase label) k)

def hasTriple (g : Graph) (s p o : Term) : Bool :=
  g.any (fun t => t.subj == s && t.pred == p && t.obj == o)

/-- The required graph pattern added for a type filter:
`?artwork crm:P2_has_type ?type . ?type rdfs:label ?typeLabel . FILTER(...)`.
A non-literal `?typeLabel` makes `LCASE` error out, dropping the row. -/
def typeClauseOk (g : Graph) (a : Term) (ty : String) : Bool :=
  g.any (fun t1 =>
    t1.subj == a && t1.pred == crm "P2_has_type" &&
    g.any (fun t2 =>
      t2.subj == t1.obj && t2.pred == rdfsLabel &&
      (match t2.obj with
       | .lit l => typeFilterMatch ty l
       | _ => false)))

/-- Conjunction of the filter clauses interpolated into the `WHERE` block. -/
def filterOk (g : Graph) (f : Filters) (a : Term) : Bool :=
  (match f.type with
   | none => true
   | some ty => typeClauseOk g a ty) &&
  (match f.material_uri with
   | none => true
   | some m => hasTriple g a (crm "P45_consists_of") m) &&
  (match f.subject_uri with
   | none => true
   | some s => hasTriple g a (crm "P15_was_influenced_by") s) &&
  (match f.artist_uri with
   | none => true
   | some ar => g.any (fun t => t.pred == crm "P108_has_produced" && t.obj == a &&
       hasTriple g t.subj (crm "P14_carried_out_by") ar)) &&
  (match f.location_uri with
   | none => true
   | some l => g.any (fun t => t.pred == crm "P108_has_produced" && t.obj == a &&
       hasTriple g t.subj (crm "P7_took_place_at") l))

/-- Subjects carrying both mandatory type statements
(`?artwork a prov:Entity ; a crm:E22_Man_Made_Object`). -/
def artworkNodes (g : Graph) : List Term :=
  ((g.map (fun t => t.subj)).dedup).filter (fun a =>
    hasTriple g a rdfType (provT "Entity") &&
    hasTriple g a rdfType (crm "E22_Man_Made_Object"))

/-- Values of the optional identifier pattern
(`?artwork crm:P1_is_identified_by ?id . ?id crm:P190_has_symbolic_content ?identifier`). -/
def identifierVals (g : Graph) (a : Term) : List Term :=
  (g.filter (fun t1 => t1.subj == a && t1.pred == crm "P1_is_identified_by")).flatMap
    (fun t1 => (g.filter (fun t2 => t2.subj == t1.obj &&
      t2.pred == crm "P190_has_symbolic_content")).map (fun t2 => t2.obj))

/-- Values of the optional title pattern. -/
def titleVals (g : Graph) (a : Term) : List Term :=
  (g.filter (fun t1 => t1.subj == a && t1.pred == crm "P102_has_title")).flatMap
    (fun t1 => (g.filter (fun t2 => t2.subj == t1.obj &&
      t2.pred == crm "P190_has_symbolic_content")).map (fun t2 => t2.obj))

/-- Values of the optional `foaf:depiction` pattern. -/
def imageVals (g : Graph) (a : Term) : List Term :=
  (g.filter (fun t => t.subj == a && t.pred == foafDepiction)).map (fun t => t.obj)

/-- An `OPTIONAL` block binds each solution, or leaves the variable unbound. -/
def optBindings (l : List Term) : List (Option Term) :=
  match l with
  | [] => [none]
  | _ => l.map some

/-- One projected solution row: `?artwork ?identifier ?title ?imageURL`. -/
structure Row where
  artwork : Term
  identifier : Option Term
  title : Option Term
  imageURL : Option Term
  deriving DecidableEq

def rowsFor (g : Graph) (a : Term) : List Row :=
  (optBindings (identifierVals g a)).flatMap (fun i =>
    (optBindings (titleVals g a)).flatMap (fun ti =>
      (optBindings (imageVals g a)).map (fun im => ⟨a, i, ti, im⟩)))

/-- `FILTER(CONTAINS(LCASE(?title), LCASE(search)))`: an unbound or non-literal
title errors out, dropping the row; the quote escaping in the Python code only
re-encodes the same search string for query syntax. -/
def searchOk (search : Option String) (row : Row) : Bool :=
  match search with
  | none => true
  | some s =>
    match row.title with
    | some (.lit t) => strContains (lcase t) (lcase s)
    | _ => false

/-- `ORDER BY ?identifier`: unbound sorts first, then codepoint-lexicographic
on the identifier string. -/
def rowLE (r1 r2 : Row) : Bool :=
  match r1.identifier, r2.identifier with
  | none, _ => true
  | some _, none => false
  | some x, some y => strLE (termStr x) (termStr y)

def insertRow (r : Row) : List Row → List Row
  | [] => [r]
  | x :: xs => if rowLE r x then r :: x :: xs else x :: insertRow r xs

def sortRows : List Row → List Row
  | [] => []
  | r :: rs => insertRow r (sortRows rs)

/-- One element of the list `get_all_artworks` returns. -/
structure ArtworkEntry where
  id : String
  uri : String
  inventoryNumber : Option String
  title : Option String
  imageURL : Option String
  deriving DecidableEq

/-- `str(row.x) if row.x else None`: an unbound variable or an empty literal
gives `None`. -/
def pyOptStr : Option Term → Option String
  | none => none
  | some t => if termStr t = "" then none else some (termStr t)

def rowToEntry (r : Row) : ArtworkEntry :=
  let u := termStr r.artwork
  { id := lastComp u, uri := u,
    inventoryNumber := pyOptStr r.identifier,
    title := pyOptStr r.title,
    imageURL := pyOptStr r.imageURL }

/-- `RDFStoreService.get_all_artworks`: the fixed `SELECT DISTINCT` query with
the interpolated filter clauses, evaluated against the graph, ordered by
`?identifier`, sliced by `OFFSET`/`LIMIT`, and converted to result
dictionaries.  The function catches every error and returns a list. -/
def get_all_artworks (g : Graph) (filters : Option Filters) (search : Option String)
    (limit : Nat) (skip : Nat) : List ArtworkEntry :=
  let matching := (artworkNodes g).filter (fun a =>
    match filters with
    | none => true
    | some f => filterOk g f a)
  let rows := (matching.flatMap (rowsFor g)).filter (searchOk search)
  let rows := rows.dedup
  let rows := sortRows rows
  let rows := (rows.drop skip).take limit
  rows.map rowToEntry

/-! ### RDFStoreService: bulk load at startup -/

/-- The result of rdflib parsing one file from the data directory: either the
statements it contributes or a parse error. -/
inductive ParsedFile where
  | ok (ts : List Triple)
  | err (msg : String)
  deriving DecidableEq

/-- A file found by the extension globs, with its parse outcome. -/
structure DataFile where
  name : String
  parsed : ParsedFile
  deriving DecidableEq

/-- `RDFStoreService.load_data_files`.  The data directory is `none` when
`Path(settings.DATA_DIR).exists()` is false: the code logs a warning and
returns normally.  Each file parse failure is caught, logged and skipped.  The
`Except` codomain records whether an exception escapes to the caller; no code
path produces `.error`. -/
def load_data_files (dir : Option (List DataFile)) (g : Graph) : Except String Graph :=
  match dir with
  | none => .ok g
  | some files =>
    .ok (files.foldl
      (fun acc f =>
        match f.parsed with
        | .ok ts => ts.foldl gadd acc
        | .err _ => acc) g)

/-! ### Derived definitions used by the verification -/

/-- Number of `rdf:type` statements with the given object: the node count for
one entity kind. -/
def typeCount (X : Term) (g : Graph) : Nat :=
  g.countP (fun t => decide (t.pred = rdfType ∧ t.obj = X))

/-- The statements `add_artwork` commits, in order. -/
def artworkTriples (u : Term) (d : ArtworkData) : List Triple :=
  [⟨u, rdfType, provT "Entity"⟩,
   ⟨u, rdfType, crm "E22_Man_Made_Object"⟩,
   ⟨Term.derived u "identifier" d.inventoryNumber, rdfType, crm "E42_Identifier"⟩,
   ⟨Term.derived u "identifier" d.inventoryNumber, crm "P190_has_symbolic_content", .lit d.inventoryNumber⟩,
   ⟨u, crm "P1_is_identified_by", Term.derived u "identifier" d.inventoryNumber⟩,
   ⟨Term.derived u "title" d.title, rdfType, crm "E35_Title"⟩,
   ⟨Term.derived u "title" d.title, crm "P190_has_symbolic_content", .lit d.title⟩,
   ⟨u, crm "P102_has_title", Term.derived u "title" d.title⟩] ++
  (match d.imageURL with
   | some i => [⟨u, foafDepiction, .uri i⟩]
   | none => []) ++
  (match d.type_uri with
   | some t => [⟨u, crm "P2_has_type", t⟩]
   | none => []) ++
  (match d.subject_uri with
   | some s => [⟨u, crm "P15_was_influenced_by", s⟩]
   | none => []) ++
  (match d.material_uri with
   | some m => [⟨u, crm "P45_consists_of", m⟩]
   | none => [])

/-- The statements `add_provenance_event` commits, in order, stopping where
`URIRef(None)` raises. -/
def eventTriples (u : Term) (d : EventData) : List Triple :=
  [⟨u, rdfType, provT "Activity"⟩,
   ⟨u, rdfType, crm "E12_Production"⟩,
   ⟨u, rdfsLabel, .lit d.kind⟩,
   ⟨u, crm "P14_carried_out_by", d.artist_uri⟩,
   ⟨u, crm "P7_took_place_at", d.location_uri⟩,
   ⟨u, crm "P108_has_produced", d.artwork_uri⟩,
   ⟨u, crm "P4_has_time_span", .lit d.date⟩] ++
  (match d.provider_uri with
   | none => []
   | some p =>
     ⟨u, crm "P109_has_current_or_former_curator", p⟩ ::
     (match d.institute_uri with
      | none => []
      | some i => [⟨u, crm "P50i_is_currently_held_by", i⟩]))

/-- What any attribute-entity resolution step preserves: the artist and
location caches, entity-cache lookups, counter monotonicity, the committed
statements, and the `E21_Person` and `E53_Place` node counts. -/
structure EntStep (st st2 : ImporterState) : Prop where
  artists : st2.created_artists = st.created_artists
  locations : st2.created_locations = st.created_locations
  entLookup : ∀ k u, findKey k st.created_entities = some u → findKey k st2.created_entities = some u
  counterLE : st.counter ≤ st2.counter
  graphSub : ∀ x ∈ st.graph, x ∈ st2.graph
  tcE21 : typeCount (crm "E21_Person") st2.graph = typeCount (crm "E21_Person") st.graph
  tcE53 : typeCount (crm "E53_Place") st2.graph = typeCount (crm "E53_Place") st.graph

/-- The sort order used throughout: `ORDER BY ?identifier`. -/
def RowsSorted (l : List Row) : Prop := l.Pairwise (fun a b => rowLE a b = true)

/-- The identifier string of a result entry (empty when absent). -/
def entryKey (e : ArtworkEntry) : String := e.inventoryNumber.getD ""

/-- Whether the bulk-load result is a normal return rather than a raised
exception. -/
def exceptOk : Except String Graph → Bool
  | .ok _ => true
  | .error _ => false

/-- A parsed record with every field absent. -/
def emptyRecord : RawRecord := ⟨[], [], none, [], none, [], none, [], none, [], none, [], [], [], [], none⟩

/-- The two records of spec scenarios A and B: same creator and spatial
values, distinct inventory identifiers. -/
def recINV1 : RawRecord :=
  { emptyRecord with identifier := ["INV-001"], creator := ["Ion Andreescu"], spatial := ["Bucharest"] }

def recINV2 : RawRecord :=
  { emptyRecord with identifier := ["INV-002"], creator := ["Ion Andreescu"], spatial := ["Bucharest"] }

/-- Two records whose spatial name variants differ but share a first letter. -/
def recBucharest : RawRecord := { emptyRecord with identifier := ["INV-010"], spatial := ["Bucharest"] }

def recBrasov : RawRecord := { emptyRecord with identifier := ["INV-011"], spatial := ["Brasov"] }

/-- Two records with free-text type labels. -/
def recUlei : RawRecord := { emptyRecord with identifier := ["INV-100"], typeTexts := ["Ulei pe pânză"] }

def recDaguerreotype : RawRecord :=
  { emptyRecord with identifier := ["INV-200"], typeTexts := ["Daguerreotype"] }

/-- A record with the given identifier and the material text `ulei`. -/
def recMat (inv : String) : RawRecord := { emptyRecord with identifier := [inv], mediumTexts := ["ulei"] }

/-- Store contents after importing the two typed records. -/
def typedGraph : Graph := (import_edm_xml freshState [recUlei, recDaguerreotype]).2.graph

/-- Store contents after importing five records sharing the material `ulei`. -/
def fiveGraph : Graph :=
  (import_edm_xml freshState [recMat "A", recMat "B", recMat "C", recMat "D", recMat "E"]).2.graph

/-- Two records with identifiers but blank creator, spatial and material. -/
def recBlank1 : RawRecord := { emptyRecord with identifier := ["X1"] }

def recBlank2 : RawRecord := { emptyRecord with identifier := ["X2"] }

/-- Event data as built for a record without an aggregation: the provider and
institute references are absent. -/
def evDataNoProv : EventData :=
  ⟨"creation", Term.uri "urn:w", Term.uri "urn:a", Term.uri "urn:l", "1900", none, none⟩

/-! ### Basic lemmas about the graph and the caches -/


theorem mem_gadd_self (g : Graph) (t : Triple) : t ∈ gadd g t := by
  unfold gadd; split
  · assumption
  · simp

theorem mem_gadd (g : Graph) (t x : Triple) (h : x ∈ g) : x ∈ gadd g t := by
  unfold gadd; split
  · exact h
  · simp [h]

theorem typeCount_gadd_ne (X : Term) (g : Graph) (t : Triple)
    (h : ¬ (t.pred = rdfType ∧ t.obj = X)) : typeCount X (gadd g t) = typeCount X g := by
  unfold gadd; split
  · rfl
  · unfold typeCount
    rw [List.countP_append]
    have hp : List.countP (fun t => decide (t.pred = rdfType ∧ t.obj = X)) [t] = 0 := by
      simp [h]
    rw [hp, Nat.add_zero]

/-- Inserting a statement whose predicate is not `rdf:type` keeps every type
count. -/
theorem typeCount_gadd_pred (X : Term) (g : Graph) (s p o : Term) (hp : ¬ p = rdfType) :
    typeCount X (gadd g ⟨s, p, o⟩) = typeCount X g :=
  typeCount_gadd_ne X g ⟨s, p, o⟩ (fun hc => hp hc.1)

/-- Inserting a type statement for a different kind keeps the count for `X`. -/
theorem typeCount_gadd_obj (X : Term) (g : Graph) (s o : Term) (ho : ¬ o = X) :
    typeCount X (gadd g ⟨s, rdfType, o⟩) = typeCount X g :=
  typeCount_gadd_ne X g ⟨s, rdfType, o⟩ (fun hc => ho hc.2)

theorem findKey_cons_of_found {α β : Type} [DecidableEq α] {m : List (α × β)}
    {k k2 : α} {u : β} (v : β)
    (h2 : findKey k2 m = none) (h : findKey k m = some u) :
    findKey k ((k2, v) :: m) = some u := by
  unfold findKey
  by_cases hk : k = k2
  · rw [hk] at h; rw [h2] at h; cases h
  · simp [hk, h]

/-! Lemmas about the write operations of the store. -/

theorem add_artist_fst (g : Graph) (u : Term) (n : String) (ul : Option String) :
    (add_artist g u n ul).1 = true := by
  cases ul <;> rfl

theorem add_artist_sub (g : Graph) (u : Term) (n : String) (ul : Option String)
    (x : Triple) (h : x ∈ g) : x ∈ (add_artist g u n ul).2 := by
  cases ul <;> simp only [add_artist] <;>
    repeat first
      | exact h
      | apply mem_gadd

theorem add_artist_typeCount (g : Graph) (u : Term) (n : String) (ul : Option String)
    (X : Term) (hA : X ≠ provT "Agent") (hP : X ≠ crm "E21_Person") :
    typeCount X (add_artist g u n ul).2 = typeCount X g := by
  cases ul <;> simp only [add_artist] <;>
    repeat
      first
      | rfl
      | rw [typeCount_gadd_pred X _ _ _ _ (by decide)]
      | rw [typeCount_gadd_obj X _ _ _ (by intro he; first | exact hA he.symm | exact hP he.symm)]

theorem add_location_fst (g : Graph) (u : Term) (v : LocVal) (tgn : Option String) :
    (add_location g u v tgn).1 = true := by
  cases tgn <;> rfl

theorem add_location_sub (g : Graph) (u : Term) (v : LocVal) (tgn : Option String)
    (x : Triple) (h : x ∈ g) : x ∈ (add_location g u v tgn).2 := by
  cases tgn <;> simp only [add_location] <;>
    repeat first
      | exact h
      | apply mem_gadd

theorem add_location_typeCount (g : Graph) (u : Term) (v : LocVal) (tgn : Option String)
    (X : Term) (hL : X ≠ provT "Location") (hP : X ≠ crm "E53_Place") :
    typeCount X (add_location g u v tgn).2 = typeCount X g := by
  cases tgn <;> simp only [add_location] <;>
    repeat
      first
      | rfl
      | rw [typeCount_gadd_pred X _ _ _ _ (by decide)]
      | rw [typeCount_gadd_obj X _ _ _ (by intro he; first | exact hL he.symm | exact hP he.symm)]

theorem add_entity_fst (g : Graph) (ty : String) (u : Term) (n : String) (l : Option String) :
    (add_entity g ty u n l).1 = true := by
  unfold add_entity
  cases l <;> simp only [] <;> repeat' split
  all_goals rfl

theorem add_entity_sub (g : Graph) (ty : String) (u : Term) (n : String) (l : Option String)
    (x : Triple) (h : x ∈ g) : x ∈ (add_entity g ty u n l).2 := by
  unfold add_entity
  cases l <;> simp only [] <;> repeat' split
  all_goals
    repeat first
      | exact h
      | apply mem_gadd

theorem add_entity_typeCount (g : Graph) (ty : String) (u : Term) (n : String)
    (l : Option String) (X : Term)
    (hA : X ≠ provT "Agent") (h55 : X ≠ crm "E55_Type")
    (h28 : X ≠ crm "E28_Conceptual_Object") (h57 : X ≠ crm "E57_Material") :
    typeCount X (add_entity g ty u n l).2 = typeCount X g := by
  unfold add_entity
  cases l <;> simp only [] <;> repeat' split
  all_goals
    repeat
      first
      | rfl
      | rw [typeCount_gadd_pred X _ _ _ _ (by decide)]
      | rw [typeCount_gadd_obj X _ _ _
            (by intro he
                first
                | exact hA he.symm
                | exact h55 he.symm
                | exact h28 he.symm
                | exact h57 he.symm)]

theorem add_artwork_fst (g : Graph) (u : Term) (d : ArtworkData) :
    (add_artwork g u d).1 = true := by
  unfold add_artwork
  cases d.imageURL <;> cases d.type_uri <;> cases d.subject_uri <;> cases d.material_uri <;> rfl

/-! A sequence of `graph.add` calls is a fold of `gadd` over the statement
list; the following lemmas reason about such folds generically. -/

theorem foldl_gadd_sub (ts : List Triple) (g : Graph) (x : Triple) (h : x ∈ g) :
    x ∈ ts.foldl gadd g := by
  induction ts generalizing g with
  | nil => exact h
  | cons t ts ih => exact ih (gadd g t) (mem_gadd g t x h)

theorem foldl_gadd_mem : ∀ (ts : List Triple) (g : Graph) (t : Triple), t ∈ ts →
    t ∈ ts.foldl gadd g := by
  intro ts
  induction ts with
  | nil => intro g t h; cases h
  | cons a ts ih =>
    intro g t h
    rcases List.mem_cons.mp h with h1 | h2
    · subst h1
      exact foldl_gadd_sub ts (gadd g t) t (mem_gadd_self g t)
    · exact ih (gadd g a) t h2

theorem foldl_gadd_typeCount (X : Term) : ∀ (ts : List Triple) (g : Graph),
    (∀ t ∈ ts, ¬ (t.pred = rdfType ∧ t.obj = X)) →
    typeCount X (ts.foldl gadd g) = typeCount X g := by
  intro ts
  induction ts with
  | nil => intro g _; rfl
  | cons t ts ih =>
    intro g h
    rw [List.foldl_cons, ih (gadd g t) (fun x hx => h x (List.mem_cons_of_mem _ hx)),
      typeCount_gadd_ne X g t (h t (List.mem_cons_self _ _))]


theorem add_artwork_eq (g : Graph) (u : Term) (d : ArtworkData) :
    (add_artwork g u d).2 = (artworkTriples u d).foldl gadd g := by
  cases d with
  | mk inv ti de cr di im ty su ma =>
    cases im <;> cases ty <;> cases su <;> cases ma <;>
      simp only [add_artwork, artworkTriples, List.cons_append, List.nil_append,
        List.append_nil, List.foldl_cons, List.foldl_nil]

theorem add_artwork_sub (g : Graph) (u : Term) (d : ArtworkData)
    (x : Triple) (h : x ∈ g) : x ∈ (add_artwork g u d).2 := by
  rw [add_artwork_eq]
  exact foldl_gadd_sub _ g x h

theorem add_artwork_mem_E22 (g : Graph) (u : Term) (d : ArtworkData) :
    (⟨u, rdfType, crm "E22_Man_Made_Object"⟩ : Triple) ∈ (add_artwork g u d).2 := by
  rw [add_artwork_eq]
  apply foldl_gadd_mem
  simp [artworkTriples]

theorem add_artwork_typeCount (g : Graph) (u : Term) (d : ArtworkData)
    (X : Term) (hE : X ≠ provT "Entity") (h22 : X ≠ crm "E22_Man_Made_Object")
    (h42 : X ≠ crm "E42_Identifier") (h35 : X ≠ crm "E35_Title") :
    typeCount X (add_artwork g u d).2 = typeCount X g := by
  rw [add_artwork_eq]
  apply foldl_gadd_typeCount
  unfold artworkTriples
  rw [List.forall_mem_append, List.forall_mem_append, List.forall_mem_append,
    List.forall_mem_append]
  refine ⟨⟨⟨⟨?_, ?_⟩, ?_⟩, ?_⟩, ?_⟩
  · intro t ht
    simp only [List.mem_cons, List.not_mem_nil, or_false] at ht
    rcases ht with rfl | rfl | rfl | rfl | rfl | rfl | rfl | rfl <;>
      intro hc <;>
      first
        | exact (by decide : ¬ crm "P190_has_symbolic_content" = rdfType) hc.1
        | exact (by decide : ¬ crm "P1_is_identified_by" = rdfType) hc.1
        | exact (by decide : ¬ crm "P102_has_title" = rdfType) hc.1
        | exact hE hc.2.symm
        | exact h22 hc.2.symm
        | exact h42 hc.2.symm
        | exact h35 hc.2.symm
  · cases d.imageURL <;> intro t ht <;> simp only [List.mem_singleton, List.not_mem_nil] at ht
    subst ht
    intro hc
    exact (by decide : ¬ foafDepiction = rdfType) hc.1
  · cases d.type_uri <;> intro t ht <;> simp only [List.mem_singleton, List.not_mem_nil] at ht
    subst ht
    intro hc
    exact (by decide : ¬ crm "P2_has_type" = rdfType) hc.1
  · cases d.subject_uri <;> intro t ht <;> simp only [List.mem_singleton, List.not_mem_nil] at ht
    subst ht
    intro hc
    exact (by decide : ¬ crm "P15_was_influenced_by" = rdfType) hc.1
  · cases d.material_uri <;> intro t ht <;> simp only [List.mem_singleton, List.not_mem_nil] at ht
    subst ht
    intro hc
    exact (by decide : ¬ crm "P45_consists_of" = rdfType) hc.1


theorem add_provenance_event_eq (g : Graph) (u : Term) (d : EventData) :
    (add_provenance_event g u d).2 = (eventTriples u d).foldl gadd g := by
  cases d with
  | mk k aw ar lo da pr inst =>
    cases pr <;> cases inst <;>
      simp only [add_provenance_event, eventTriples, List.cons_append, List.nil_append,
        List.append_nil, List.foldl_cons, List.foldl_nil]

theorem add_provenance_event_sub (g : Graph) (u : Term) (d : EventData)
    (x : Triple) (h : x ∈ g) : x ∈ (add_provenance_event g u d).2 := by
  rw [add_provenance_event_eq]
  exact foldl_gadd_sub _ g x h

theorem add_provenance_event_core (g : Graph) (u : Term) (d : EventData) :
    (⟨u, rdfType, provT "Activity"⟩ : Triple) ∈ (add_provenance_event g u d).2 ∧
    (⟨u, rdfType, crm "E12_Production"⟩ : Triple) ∈ (add_provenance_event g u d).2 ∧
    (⟨u, rdfsLabel, .lit d.kind⟩ : Triple) ∈ (add_provenance_event g u d).2 ∧
    (⟨u, crm "P14_carried_out_by", d.artist_uri⟩ : Triple) ∈ (add_provenance_event g u d).2 ∧
    (⟨u, crm "P7_took_place_at", d.location_uri⟩ : Triple) ∈ (add_provenance_event g u d).2 ∧
    (⟨u, crm "P108_has_produced", d.artwork_uri⟩ : Triple) ∈ (add_provenance_event g u d).2 ∧
    (⟨u, crm "P4_has_time_span", .lit d.date⟩ : Triple) ∈ (add_provenance_event g u d).2 := by
  rw [add_provenance_event_eq]
  refine ⟨?_, ?_, ?_, ?_, ?_, ?_, ?_⟩ <;>
    apply foldl_gadd_mem <;>
    simp [eventTriples]

theorem add_provenance_event_typeCount (g : Graph) (u : Term) (d : EventData)
    (X : Term) (hA : X ≠ provT "Activity") (h12 : X ≠ crm "E12_Production") :
    typeCount X (add_provenance_event g u d).2 = typeCount X g := by
  rw [add_provenance_event_eq]
  apply foldl_gadd_typeCount
  unfold eventTriples
  rw [List.forall_mem_append]
  constructor
  · intro t ht
    simp only [List.mem_cons, List.not_mem_nil, or_false] at ht
    rcases ht with rfl | rfl | rfl | rfl | rfl | rfl | rfl <;>
      intro hc <;>
      first
        | exact (by decide : ¬ rdfsLabel = rdfType) hc.1
        | exact (by decide : ¬ crm "P14_carried_out_by" = rdfType) hc.1
        | exact (by decide : ¬ crm "P7_took_place_at" = rdfType) hc.1
        | exact (by decide : ¬ crm "P108_has_produced" = rdfType) hc.1
        | exact (by decide : ¬ crm "P4_has_time_span" = rdfType) hc.1
        | exact hA hc.2.symm
        | exact h12 hc.2.symm
  · cases d.provider_uri with
    | none => intro t ht; cases ht
    | some p =>
      cases d.institute_uri with
      | none =>
        intro t ht
        simp only [List.mem_singleton, List.not_mem_nil] at ht
        subst ht
        intro hc
        exact (by decide : ¬ crm "P109_has_current_or_former_curator" = rdfType) hc.1
      | some i =>
        intro t ht
        simp only [List.mem_cons, List.not_mem_nil, or_false] at ht
        rcases ht with rfl | rfl <;>
          intro hc <;>
          first
            | exact (by decide : ¬ crm "P109_has_current_or_former_curator" = rdfType) hc.1
            | exact (by decide : ¬ crm "P50i_is_currently_held_by" = rdfType) hc.1

/-! ### Lemmas about the registry functions -/

theorem foca_spec (st : ImporterState) (n : String) (ul : Option String) :
    ∃ a : Term,
      (find_or_create_artist st n ul).1 = some a ∧
      findKey (if n = "" then "Unknown Artist" else n)
        ((find_or_create_artist st n ul).2).created_artists = some a := by
  simp only [find_or_create_artist]
  cases hk : findKey (if n = "" then "Unknown Artist" else n) st.created_artists with
  | some u => exact ⟨u, rfl, hk⟩
  | none =>
    refine ⟨Term.minted "artist" st.counter, ?_, ?_⟩ <;>
      simp [add_artist_fst, findKey]

theorem foca_hit (st : ImporterState) (n : String) (ul : Option String) (u : Term)
    (h : findKey (if n = "" then "Unknown Artist" else n) st.created_artists = some u) :
    find_or_create_artist st n ul = (some u, st) := by
  simp only [find_or_create_artist]
  rw [h]

theorem foca_counter (st : ImporterState) (n : String) (ul : Option String) :
    st.counter ≤ ((find_or_create_artist st n ul).2).counter := by
  simp only [find_or_create_artist]
  cases hk : findKey (if n = "" then "Unknown Artist" else n) st.created_artists with
  | some u => exact Nat.le_refl _
  | none => simp [add_artist_fst]

theorem foca_caches (st : ImporterState) (n : String) (ul : Option String) :
    ((find_or_create_artist st n ul).2).created_locations = st.created_locations ∧
    ((find_or_create_artist st n ul).2).created_entities = st.created_entities := by
  simp only [find_or_create_artist]
  cases hk : findKey (if n = "" then "Unknown Artist" else n) st.created_artists with
  | some u => exact ⟨rfl, rfl⟩
  | none => simp [add_artist_fst]

theorem foca_lookup (st : ImporterState) (n : String) (ul : Option String)
    (k : String) (u : Term) (h : findKey k st.created_artists = some u) :
    findKey k ((find_or_create_artist st n ul).2).created_artists = some u := by
  simp only [find_or_create_artist]
  cases hk : findKey (if n = "" then "Unknown Artist" else n) st.created_artists with
  | some u2 => exact h
  | none =>
    simp only [add_artist_fst, if_true]
    exact findKey_cons_of_found _ hk h

theorem foca_graph_sub (st : ImporterState) (n : String) (ul : Option String)
    (x : Triple) (h : x ∈ st.graph) : x ∈ ((find_or_create_artist st n ul).2).graph := by
  simp only [find_or_create_artist]
  cases hk : findKey (if n = "" then "Unknown Artist" else n) st.created_artists with
  | some u => exact h
  | none =>
    simp only [add_artist_fst, if_true]
    exact add_artist_sub _ _ _ _ x h

theorem foca_typeCount (st : ImporterState) (n : String) (ul : Option String)
    (X : Term) (hA : X ≠ provT "Agent") (hP : X ≠ crm "E21_Person") :
    typeCount X ((find_or_create_artist st n ul).2).graph = typeCount X st.graph := by
  simp only [find_or_create_artist]
  cases hk : findKey (if n = "" then "Unknown Artist" else n) st.created_artists with
  | some u => rfl
  | none =>
    simp only [add_artist_fst, if_true]
    exact add_artist_typeCount _ _ _ _ X hA hP

theorem focl_spec (st : ImporterState) (v : LocVal) (tgn : Option String) :
    ∃ a : Term,
      (find_or_create_location st v tgn).1 = some a ∧
      findKey (locIndexZero (if locFalsy v then .listVal ["Unknown Location"] else v))
        ((find_or_create_location st v tgn).2).created_locations = some a := by
  simp only [find_or_create_location]
  cases hk : findKey (locIndexZero (if locFalsy v then .listVal ["Unknown Location"] else v))
      st.created_locations with
  | some u => exact ⟨u, rfl, hk⟩
  | none =>
    refine ⟨Term.minted "location" st.counter, ?_, ?_⟩ <;>
      simp [add_location_fst, findKey]

theorem focl_hit (st : ImporterState) (v : LocVal) (tgn : Option String) (u : Term)
    (h : findKey (locIndexZero (if locFalsy v then .listVal ["Unknown Location"] else v))
      st.created_locations = some u) :
    find_or_create_location st v tgn = (some u, st) := by
  simp only [find_or_create_location]
  rw [h]

theorem focl_counter (st : ImporterState) (v : LocVal) (tgn : Option String) :
    st.counter ≤ ((find_or_create_location st v tgn).2).counter := by
  simp only [find_or_create_location]
  cases hk : findKey (locIndexZero (if locFalsy v then .listVal ["Unknown Location"] else v))
      st.created_locations with
  | some u => exact Nat.le_refl _
  | none => simp [add_location_fst]

theorem focl_caches (st : ImporterState) (v : LocVal) (tgn : Option String) :
    ((find_or_create_location st v tgn).2).created_artists = st.created_artists ∧
    ((find_or_create_location st v tgn).2).created_entities = st.created_entities := by
  simp only [find_or_create_location]
  cases hk : findKey (locIndexZero (if locFalsy v then .listVal ["Unknown Location"] else v))
      st.created_locations with
  | some u => exact ⟨rfl, rfl⟩
  | none => simp [add_location_fst]

theorem focl_lookup (st : ImporterState) (v : LocVal) (tgn : Option String)
    (k : String) (u : Term) (h : findKey k st.created_locations = some u) :
    findKey k ((find_or_create_location st v tgn).2).created_locations = some u := by
  simp only [find_or_create_location]
  cases hk : findKey (locIndexZero (if locFalsy v then .listVal ["Unknown Location"] else v))
      st.created_locations with
  | some u2 => exact h
  | none =>
    simp only [add_location_fst, if_true]
    exact findKey_cons_of_found _ hk h

theorem focl_graph_sub (st : ImporterState) (v : LocVal) (tgn : Option String)
    (x : Triple) (h : x ∈ st.graph) : x ∈ ((find_or_create_location st v tgn).2).graph := by
  simp only [find_or_create_location]
  cases hk : findKey (locIndexZero (if locFalsy v then .listVal ["Unknown Location"] else v))
      st.created_locations with
  | some u => exact h
  | none =>
    simp only [add_location_fst, if_true]
    exact add_location_sub _ _ _ _ x h

theorem focl_typeCount (st : ImporterState) (v : LocVal) (tgn : Option String)
    (X : Term) (hL : X ≠ provT "Location") (hP : X ≠ crm "E53_Place") :
    typeCount X ((find_or_create_location st v tgn).2).graph = typeCount X st.graph := by
  simp only [find_or_create_location]
  cases hk : findKey (locIndexZero (if locFalsy v then .listVal ["Unknown Location"] else v))
      st.created_locations with
  | some u => rfl
  | none =>
    simp only [add_location_fst, if_true]
    exact add_location_typeCount _ _ _ _ X hL hP

theorem foce_spec (st : ImporterState) (ty : String) (n : String) (l : Option String) :
    ∃ a : Term,
      (find_or_create_entity st ty n l).1 = some a ∧
      findKey ((if n = "" then "Unknown" else n), l)
        ((find_or_create_entity st ty n l).2).created_entities = some a := by
  simp only [find_or_create_entity]
  cases hk : findKey ((if n = "" then "Unknown" else n), l) st.created_entities with
  | some u => exact ⟨u, rfl, hk⟩
  | none =>
    refine ⟨Term.minted "attributes" st.counter, ?_, ?_⟩ <;>
      simp [add_entity_fst, findKey]

theorem foce_hit (st : ImporterState) (ty : String) (n : String) (l : Option String) (u : Term)
    (h : findKey ((if n = "" then "Unknown" else n), l) st.created_entities = some u) :
    find_or_create_entity st ty n l = (some u, st) := by
  simp only [find_or_create_entity]
  rw [h]

theorem foce_counter (st : ImporterState) (ty : String) (n : String) (l : Option String) :
    st.counter ≤ ((find_or_create_entity st ty n l).2).counter := by
  simp only [find_or_create_entity]
  cases hk : findKey ((if n = "" then "Unknown" else n), l) st.created_entities with
  | some u => exact Nat.le_refl _
  | none => simp [add_entity_fst]

theorem foce_caches (st : ImporterState) (ty : String) (n : String) (l : Option String) :
    ((find_or_create_entity st ty n l).2).created_artists = st.created_artists ∧
    ((find_or_create_entity st ty n l).2).created_locations = st.created_locations := by
  simp only [find_or_create_entity]
  cases hk : findKey ((if n = "" then "Unknown" else n), l) st.created_entities with
  | some u => exact ⟨rfl, rfl⟩
  | none => simp [add_entity_fst]

theorem foce_lookup (st : ImporterState) (ty : String) (n : String) (l : Option String)
    (k : String × Option String) (u : Term) (h : findKey k st.created_entities = some u) :
    findKey k ((find_or_create_entity st ty n l).2).created_entities = some u := by
  simp only [find_or_create_entity]
  cases hk : findKey ((if n = "" then "Unknown" else n), l) st.created_entities with
  | some u2 => exact h
  | none =>
    simp only [add_entity_fst, if_true]
    exact findKey_cons_of_found _ hk h

theorem foce_graph_sub (st : ImporterState) (ty : String) (n : String) (l : Option String)
    (x : Triple) (h : x ∈ st.graph) : x ∈ ((find_or_create_entity st ty n l).2).graph := by
  simp only [find_or_create_entity]
  cases hk : findKey ((if n = "" then "Unknown" else n), l) st.created_entities with
  | some u => exact h
  | none =>
    simp only [add_entity_fst, if_true]
    exact add_entity_sub _ _ _ _ _ x h

theorem foce_typeCount (st : ImporterState) (ty : String) (n : String) (l : Option String)
    (X : Term) (hA : X ≠ provT "Agent") (h55 : X ≠ crm "E55_Type")
    (h28 : X ≠ crm "E28_Conceptual_Object") (h57 : X ≠ crm "E57_Material") :
    typeCount X ((find_or_create_entity st ty n l).2).graph = typeCount X st.graph := by
  simp only [find_or_create_entity]
  cases hk : findKey ((if n = "" then "Unknown" else n), l) st.created_entities with
  | some u => rfl
  | none =>
    simp only [add_entity_fst, if_true]
    exact add_entity_typeCount _ _ _ _ _ X hA h55 h28 h57

/-! ### Step bundles for the record pipeline -/


theorem entStep_rfl (st : ImporterState) : EntStep st st :=
  ⟨rfl, rfl, fun _ _ hh => hh, Nat.le_refl _, fun _ hx => hx, rfl, rfl⟩

theorem entStep_trans {a b c : ImporterState} (h1 : EntStep a b) (h2 : EntStep b c) :
    EntStep a c :=
  ⟨h2.artists.trans h1.artists, h2.locations.trans h1.locations,
   fun k u hh => h2.entLookup k u (h1.entLookup k u hh),
   Nat.le_trans h1.counterLE h2.counterLE,
   fun x hx => h2.graphSub x (h1.graphSub x hx),
   h2.tcE21.trans h1.tcE21, h2.tcE53.trans h1.tcE53⟩

theorem foce_entStep (st : ImporterState) (ty : String) (n : String) (l : Option String) :
    EntStep st (find_or_create_entity st ty n l).2 :=
  ⟨(foce_caches st ty n l).1, (foce_caches st ty n l).2,
   fun k u hh => foce_lookup st ty n l k u hh,
   foce_counter st ty n l,
   fun x hx => foce_graph_sub st ty n l x hx,
   foce_typeCount st ty n l _ (by decide) (by decide) (by decide) (by decide),
   foce_typeCount st ty n l _ (by decide) (by decide) (by decide) (by decide)⟩

theorem pstep_entStep (st : ImporterState) (pl : Option String) :
    EntStep st (match pl with
      | some _ => find_or_create_entity st "provider" "" pl
      | none => ((none : Option Term), st)).2 := by
  cases pl with
  | none => exact entStep_rfl st
  | some p => exact foce_entStep st "provider" "" (some p)

theorem istep_entStep (st : ImporterState) (iname : String) :
    EntStep st (if iname = "" then ((none : Option Term), st)
      else find_or_create_entity st "institute" iname none).2 := by
  by_cases hi : iname = ""
  · rw [if_pos hi]; exact entStep_rfl st
  · rw [if_neg hi]; exact foce_entStep st "institute" iname none

/-- Anatomy of one successful record: the resolutions all return ids, the
artwork and the event are minted at consecutive counter values, the three
registry caches map the natural keys to the returned ids, and the artwork and
event statements are committed. -/
theorem parse_edm_cho_spec (st0 : ImporterState) (r : RawRecord)
    (h : ¬ getText r.identifier = "") :
    ∃ (a l m : Term) (k : Nat),
      (parse_edm_cho st0 r).1.success = true ∧
      (parse_edm_cho st0 r).1.artistUri = some a ∧
      (parse_edm_cho st0 r).1.locationUri = some l ∧
      (parse_edm_cho st0 r).1.materialUri = some m ∧
      (parse_edm_cho st0 r).1.artworkUri = some (Term.minted "artwork" k) ∧
      (parse_edm_cho st0 r).1.eventUri = some (Term.minted "event" (k + 1)) ∧
      st0.counter ≤ k ∧
      ((parse_edm_cho st0 r).2).counter = k + 2 ∧
      findKey (if getText r.creator = "" then "Unknown Artist" else getText r.creator)
        ((parse_edm_cho st0 r).2).created_artists = some a ∧
      findKey (locIndexZero (if locFalsy (.strVal (getText r.spatial))
          then .listVal ["Unknown Location"] else .strVal (getText r.spatial)))
        ((parse_edm_cho st0 r).2).created_locations = some l ∧
      findKey ((if getText r.mediumTexts = "" then "Unknown" else getText r.mediumTexts), r.mediumLink)
        ((parse_edm_cho st0 r).2).created_entities = some m ∧
      (⟨Term.minted "artwork" k, rdfType, crm "E22_Man_Made_Object"⟩ : Triple)
        ∈ ((parse_edm_cho st0 r).2).graph ∧
      (⟨Term.minted "event" (k + 1), rdfType, crm "E12_Production"⟩ : Triple)
        ∈ ((parse_edm_cho st0 r).2).graph ∧
      (⟨Term.minted "event" (k + 1), rdfsLabel, Term.lit "creation"⟩ : Triple)
        ∈ ((parse_edm_cho st0 r).2).graph ∧
      (⟨Term.minted "event" (k + 1), crm "P14_carried_out_by", a⟩ : Triple)
        ∈ ((parse_edm_cho st0 r).2).graph ∧
      (⟨Term.minted "event" (k + 1), crm "P7_took_place_at", l⟩ : Triple)
        ∈ ((parse_edm_cho st0 r).2).graph ∧
      (⟨Term.minted "event" (k + 1), crm "P108_has_produced", Term.minted "artwork" k⟩ : Triple)
        ∈ ((parse_edm_cho st0 r).2).graph ∧
      (⟨Term.minted "event" (k + 1), crm "P4_has_time_span", Term.lit (getText r.created)⟩ : Triple)
        ∈ ((parse_edm_cho st0 r).2).graph := by
  set A := find_or_create_artist st0 (getText r.creator) r.creatorLink with hA
  set L := find_or_create_location A.2 (.strVal (getText r.spatial)) r.spatialLink with hL
  set T := find_or_create_entity L.2 "type" (getText r.typeTexts) r.typeLink with hT
  set S := find_or_create_entity T.2 "subject" (getText r.subjectTexts) r.subjectLink with hS
  set M := find_or_create_entity S.2 "material" (getText r.mediumTexts) r.mediumLink with hM
  set PL := (match r.agg with | some a => a.provider | none => none : Option String) with hPL
  set P := (match PL with
    | some _ => find_or_create_entity M.2 "provider" "" PL
    | none => ((none : Option Term), M.2)) with hP
  set IN := (match r.agg with | some a => getText a.dataProvider | none => "" : String) with hIN
  set I := (if IN = "" then ((none : Option Term), P.2)
    else find_or_create_entity P.2 "institute" IN none) with hI
  set AW := add_artwork I.2.graph (Term.minted "artwork" I.2.counter)
    ⟨getText r.identifier, getText r.title, getText r.description, getText r.created,
     getText r.extent, (match r.agg with | some a => a.isShownBy | none => none),
     T.1, S.1, M.1⟩ with hAW
  obtain ⟨a, ha1, ha2⟩ := foca_spec st0 (getText r.creator) r.creatorLink
  rw [← hA] at ha1 ha2
  obtain ⟨l, hl1, hl2⟩ := focl_spec A.2 (.strVal (getText r.spatial)) r.spatialLink
  rw [← hL] at hl1 hl2
  obtain ⟨m, hm1, hm2⟩ := foce_spec S.2 "material" (getText r.mediumTexts) r.mediumLink
  rw [← hM] at hm1 hm2
  have hfa : AW.1 = true := by rw [hAW]; exact add_artwork_fst _ _ _
  have hnf : ¬ (AW.1 = false) := by rw [hfa]; decide
  have eT : EntStep L.2 T.2 := by rw [hT]; exact foce_entStep L.2 "type" (getText r.typeTexts) r.typeLink
  have eS : EntStep T.2 S.2 := by rw [hS]; exact foce_entStep T.2 "subject" (getText r.subjectTexts) r.subjectLink
  have eM : EntStep S.2 M.2 := by rw [hM]; exact foce_entStep S.2 "material" (getText r.mediumTexts) r.mediumLink
  have eP : EntStep M.2 P.2 := by rw [hP]; exact pstep_entStep M.2 PL
  have eI : EntStep P.2 I.2 := by rw [hI]; exact istep_entStep P.2 IN
  have eMI : EntStep M.2 I.2 := entStep_trans eP eI
  have eLI : EntStep L.2 I.2 := entStep_trans eT (entStep_trans eS (entStep_trans eM eMI))
  have hc0 : st0.counter ≤ A.2.counter := by rw [hA]; exact foca_counter _ _ _
  have hc1 : A.2.counter ≤ L.2.counter := by rw [hL]; exact focl_counter _ _ _
  have hck : st0.counter ≤ I.2.counter :=
    Nat.le_trans hc0 (Nat.le_trans hc1 eLI.counterLE)
  have hcaA : L.2.created_artists = A.2.created_artists := by
    rw [hL]; exact (focl_caches _ _ _).1
  have hfinal : parse_edm_cho st0 r =
      (⟨true, A.1, L.1, T.1, S.1, M.1, P.1, I.1,
        some (Term.minted "artwork" I.2.counter),
        some (Term.minted "event" (I.2.counter + 1))⟩,
       ⟨I.2.created_artists, I.2.created_locations, I.2.created_entities,
        I.2.counter + 2,
        (add_provenance_event AW.2 (Term.minted "event" (I.2.counter + 1))
          ⟨"creation", Term.minted "artwork" I.2.counter, a, l, getText r.created,
           P.1, I.1⟩).2⟩) := by
    simp only [parse_edm_cho]
    rw [if_neg h]
    rw [← hA, ← hL, ← hT, ← hS, ← hM, ← hPL, ← hIN, ← hP, ← hI, ← hAW]
    rw [if_neg hnf]
    rw [ha1, hl1]
  refine ⟨a, l, m, I.2.counter, ?_, ?_, ?_, ?_, ?_, ?_, hck, ?_, ?_, ?_, ?_, ?_, ?_, ?_, ?_, ?_, ?_, ?_⟩
  · rw [hfinal]
  · rw [hfinal]; exact ha1
  · rw [hfinal]; exact hl1
  · rw [hfinal]; exact hm1
  · rw [hfinal]
  · rw [hfinal]
  · rw [hfinal]
  · rw [hfinal]
    show findKey _ I.2.created_artists = some a
    rw [eLI.artists, hcaA]
    exact ha2
  · rw [hfinal]
    show findKey _ I.2.created_locations = some l
    rw [eLI.locations]
    exact hl2
  · rw [hfinal]
    show findKey _ I.2.created_entities = some m
    exact eMI.entLookup _ m hm2
  · rw [hfinal]
    show _ ∈ (add_provenance_event AW.2 _ _).2
    apply add_provenance_event_sub
    rw [hAW]
    exact add_artwork_mem_E22 _ _ _
  · rw [hfinal]
    exact (add_provenance_event_core AW.2 _ _).2.1
  · rw [hfinal]
    exact (add_provenance_event_core AW.2 _ _).2.2.1
  · rw [hfinal]
    exact (add_provenance_event_core AW.2 _ _).2.2.2.1
  · rw [hfinal]
    exact (add_provenance_event_core AW.2 _ _).2.2.2.2.1
  · rw [hfinal]
    exact (add_provenance_event_core AW.2 _ _).2.2.2.2.2.1
  · rw [hfinal]
    exact (add_provenance_event_core AW.2 _ _).2.2.2.2.2.2

/-- Cache-hit behaviour of one record: when the creator name, the location
key, or the material key is already in the corresponding registry cache, the
record reuses the cached id; for creator and location the cache is left
unchanged and no new `E21_Person` / `E53_Place` node is committed. -/
theorem parse_edm_cho_hits (st0 : ImporterState) (r : RawRecord)
    (h : ¬ getText r.identifier = "") :
    (∀ u : Term,
      findKey (if getText r.creator = "" then "Unknown Artist" else getText r.creator)
        st0.created_artists = some u →
      (parse_edm_cho st0 r).1.artistUri = some u ∧
      ((parse_edm_cho st0 r).2).created_artists = st0.created_artists ∧
      typeCount (crm "E21_Person") ((parse_edm_cho st0 r).2).graph =
        typeCount (crm "E21_Person") st0.graph) ∧
    (∀ u : Term,
      findKey (locIndexZero (if locFalsy (.strVal (getText r.spatial))
          then .listVal ["Unknown Location"] else .strVal (getText r.spatial)))
        st0.created_locations = some u →
      (parse_edm_cho st0 r).1.locationUri = some u ∧
      ((parse_edm_cho st0 r).2).created_locations = st0.created_locations ∧
      typeCount (crm "E53_Place") ((parse_edm_cho st0 r).2).graph =
        typeCount (crm "E53_Place") st0.graph) ∧
    (∀ u : Term,
      findKey ((if getText r.mediumTexts = "" then "Unknown" else getText r.mediumTexts),
          r.mediumLink) st0.created_entities = some u →
      (parse_edm_cho st0 r).1.materialUri = some u) := by
  set A := find_or_create_artist st0 (getText r.creator) r.creatorLink with hA
  set L := find_or_create_location A.2 (.strVal (getText r.spatial)) r.spatialLink with hL
  set T := find_or_create_entity L.2 "type" (getText r.typeTexts) r.typeLink with hT
  set S := find_or_create_entity T.2 "subject" (getText r.subjectTexts) r.subjectLink with hS
  set M := find_or_create_entity S.2 "material" (getText r.mediumTexts) r.mediumLink with hM
  set PL := (match r.agg with | some a => a.provider | none => none : Option String) with hPL
  set P := (match PL with
    | some _ => find_or_create_entity M.2 "provider" "" PL
    | none => ((none : Option Term), M.2)) with hP
  set IN := (match r.agg with | some a => getText a.dataProvider | none => "" : String) with hIN
  set I := (if IN = "" then ((none : Option Term), P.2)
    else find_or_create_entity P.2 "institute" IN none) with hI
  set AW := add_artwork I.2.graph (Term.minted "artwork" I.2.counter)
    ⟨getText r.identifier, getText r.title, getText r.description, getText r.created,
     getText r.extent, (match r.agg with | some a => a.isShownBy | none => none),
     T.1, S.1, M.1⟩ with hAW
  obtain ⟨a, ha1, ha2⟩ := foca_spec st0 (getText r.creator) r.creatorLink
  rw [← hA] at ha1 ha2
  obtain ⟨l, hl1, hl2⟩ := focl_spec A.2 (.strVal (getText r.spatial)) r.spatialLink
  rw [← hL] at hl1 hl2
  have hfa : AW.1 = true := by rw [hAW]; exact add_artwork_fst _ _ _
  have hnf : ¬ (AW.1 = false) := by rw [hfa]; decide
  have eT : EntStep L.2 T.2 := by rw [hT]; exact foce_entStep L.2 "type" (getText r.typeTexts) r.typeLink
  have eS : EntStep T.2 S.2 := by rw [hS]; exact foce_entStep T.2 "subject" (getText r.subjectTexts) r.subjectLink
  have eM : EntStep S.2 M.2 := by rw [hM]; exact foce_entStep S.2 "material" (getText r.mediumTexts) r.mediumLink
  have eP : EntStep M.2 P.2 := by rw [hP]; exact pstep_entStep M.2 PL
  have eI : EntStep P.2 I.2 := by rw [hI]; exact istep_entStep P.2 IN
  have eMI : EntStep M.2 I.2 := entStep_trans eP eI
  have eLI : EntStep L.2 I.2 := entStep_trans eT (entStep_trans eS (entStep_trans eM eMI))
  have hcaA : L.2.created_artists = A.2.created_artists := by
    rw [hL]; exact (focl_caches _ _ _).1
  have hceA : A.2.created_entities = st0.created_entities := by
    rw [hA]; exact (foca_caches _ _ _).2
  have hclA : A.2.created_locations = st0.created_locations := by
    rw [hA]; exact (foca_caches _ _ _).1
  have hceL : L.2.created_entities = A.2.created_entities := by
    rw [hL]; exact (focl_caches _ _ _).2
  have hfinal : parse_edm_cho st0 r =
      (⟨true, A.1, L.1, T.1, S.1, M.1, P.1, I.1,
        some (Term.minted "artwork" I.2.counter),
        some (Term.minted "event" (I.2.counter + 1))⟩,
       ⟨I.2.created_artists, I.2.created_locations, I.2.created_entities,
        I.2.counter + 2,
        (add_provenance_event AW.2 (Term.minted "event" (I.2.counter + 1))
          ⟨"creation", Term.minted "artwork" I.2.counter, a, l, getText r.created,
           P.1, I.1⟩).2⟩) := by
    simp only [parse_edm_cho]
    rw [if_neg h]
    rw [← hA, ← hL, ← hT, ← hS, ← hM, ← hPL, ← hIN, ← hP, ← hI, ← hAW]
    rw [if_neg hnf]
    rw [ha1, hl1]
  have hg21 : typeCount (crm "E21_Person")
      (add_provenance_event AW.2 (Term.minted "event" (I.2.counter + 1))
        ⟨"creation", Term.minted "artwork" I.2.counter, a, l, getText r.created,
         P.1, I.1⟩).2 = typeCount (crm "E21_Person") L.2.graph := by
    rw [add_provenance_event_typeCount AW.2 (Term.minted "event" (I.2.counter + 1)) _
      (crm "E21_Person") (by decide) (by decide)]
    rw [hAW, add_artwork_typeCount I.2.graph (Term.minted "artwork" I.2.counter) _
      (crm "E21_Person") (by decide) (by decide) (by decide) (by decide)]
    exact eLI.tcE21
  have hg53 : typeCount (crm "E53_Place")
      (add_provenance_event AW.2 (Term.minted "event" (I.2.counter + 1))
        ⟨"creation", Term.minted "artwork" I.2.counter, a, l, getText r.created,
         P.1, I.1⟩).2 = typeCount (crm "E53_Place") L.2.graph := by
    rw [add_provenance_event_typeCount AW.2 (Term.minted "event" (I.2.counter + 1)) _
      (crm "E53_Place") (by decide) (by decide)]
    rw [hAW, add_artwork_typeCount I.2.graph (Term.minted "artwork" I.2.counter) _
      (crm "E53_Place") (by decide) (by decide) (by decide) (by decide)]
    exact eLI.tcE53
  refine ⟨?_, ?_, ?_⟩
  · intro u hu
    have hAhit : A = (some u, st0) := by
      rw [hA]; exact foca_hit st0 _ _ u hu
    have hA2 : A.2 = st0 := by rw [hAhit]
    have hA1u : A.1 = some u := by rw [hAhit]
    refine ⟨?_, ?_, ?_⟩
    · rw [hfinal]; exact hA1u
    · rw [hfinal]
      show I.2.created_artists = st0.created_artists
      rw [eLI.artists, hcaA, hA2]
    · rw [hfinal]
      show typeCount _ (add_provenance_event _ _ _).2 = _
      rw [hg21]
      have : typeCount (crm "E21_Person") L.2.graph = typeCount (crm "E21_Person") A.2.graph := by
        rw [hL]; exact focl_typeCount _ _ _ _ (by decide) (by decide)
      rw [this, hA2]
  · intro u hu
    rw [← hclA] at hu
    have hLhit : L = (some u, A.2) := by
      rw [hL]; exact focl_hit A.2 _ _ u hu
    have hL2 : L.2 = A.2 := by rw [hLhit]
    have hL1u : L.1 = some u := by rw [hLhit]
    refine ⟨?_, ?_, ?_⟩
    · rw [hfinal]; exact hL1u
    · rw [hfinal]
      show I.2.created_locations = st0.created_locations
      rw [eLI.locations, hL2, hclA]
    · rw [hfinal]
      show typeCount _ (add_provenance_event _ _ _).2 = _
      rw [hg53, hL2]
      have : typeCount (crm "E53_Place") A.2.graph = typeCount (crm "E53_Place") st0.graph := by
        rw [hA]; exact foca_typeCount _ _ _ _ (by decide) (by decide)
      rw [this]
  · intro u hu
    rw [← hceA, ← hceL] at hu
    have huT : findKey ((if getText r.mediumTexts = "" then "Unknown" else getText r.mediumTexts),
        r.mediumLink) T.2.created_entities = some u := by
      rw [hT]; exact foce_lookup _ _ _ _ _ u hu
    have huS : findKey ((if getText r.mediumTexts = "" then "Unknown" else getText r.mediumTexts),
        r.mediumLink) S.2.created_entities = some u := by
      rw [hS]; exact foce_lookup _ _ _ _ _ u huT
    have hMhit : M = (some u, S.2) := by
      rw [hM]; exact foce_hit S.2 _ _ _ u huS
    have hM1u : M.1 = some u := by rw [hMhit]
    rw [hfinal]; exact hM1u

/-! ### Records without the required identifier -/

theorem parse_edm_cho_skip (st : ImporterState) (r : RawRecord)
    (h : getText r.identifier = "") :
    parse_edm_cho st r = ({ success := false }, st) := by
  simp only [parse_edm_cho]
  rw [if_pos h]

theorem importGo_cons_skip (st : ImporterState) (r : RawRecord) (rs : List RawRecord)
    (h : getText r.identifier = "") :
    importGo st (r :: rs) =
      ((importGo st rs).1, importErrorMsg r :: (importGo st rs).2.1, (importGo st rs).2.2) := by
  simp only [importGo]
  rw [parse_edm_cho_skip st r h]
  simp

/-! ### Lexicographic order lemmas -/

theorem charsLE_nil_left (b : List Char) : charsLE [] b = true := rfl

theorem charsLE_nil_right (a : List Char) (h : charsLE a [] = true) : a = [] := by
  cases a with
  | nil => rfl
  | cons c cs => simp [charsLE] at h

theorem charsLE_total : ∀ a b : List Char, charsLE a b = true ∨ charsLE b a = true := by
  intro a
  induction a with
  | nil => intro b; left; rfl
  | cons c cs ih =>
    intro b
    cases b with
    | nil => right; rfl
    | cons d ds =>
      by_cases hcd : c = d
      · subst hcd
        simp only [charsLE, if_pos rfl]
        exact ih ds
      · have hdc : ¬ d = c := fun he => hcd he.symm
        simp only [charsLE, if_neg hcd, if_neg hdc]
        rcases lt_or_gt_of_ne hcd with hlt | hgt
        · left; exact decide_eq_true hlt
        · right; exact decide_eq_true hgt

theorem charsLE_trans : ∀ a b c : List Char,
    charsLE a b = true → charsLE b c = true → charsLE a c = true := by
  intro a
  induction a with
  | nil => intro b c _ _; rfl
  | cons x xs ih =>
    intro b c hab hbc
    cases b with
    | nil => simp [charsLE] at hab
    | cons y ys =>
      cases c with
      | nil => simp [charsLE] at hbc
      | cons z zs =>
        by_cases hxy : x = y <;> by_cases hyz : y = z
        · subst hxy; subst hyz
          simp only [charsLE, if_pos rfl] at hab hbc ⊢
          exact ih ys zs hab hbc
        · subst hxy
          simp only [charsLE, if_pos rfl, if_neg hyz] at hab hbc
          have hxz : ¬ x = z := hyz
          simp only [charsLE, if_neg hxz]
          exact hbc
        · subst hyz
          simp only [charsLE, if_neg hxy, if_pos rfl] at hab hbc
          simp only [charsLE, if_neg hxy]
          exact hab
        · simp only [charsLE, if_neg hxy, if_neg hyz] at hab hbc
          have h1 : x < y := of_decide_eq_true hab
          have h2 : y < z := of_decide_eq_true hbc
          have h3 : x < z := lt_trans h1 h2
          have hxz : ¬ x = z := ne_of_lt h3
          simp only [charsLE, if_neg hxz]
          exact decide_eq_true h3

theorem strLE_total (s t : String) : strLE s t = true ∨ strLE t s = true :=
  charsLE_total s.data t.data

theorem strLE_trans (s t u : String) (h1 : strLE s t = true) (h2 : strLE t u = true) :
    strLE s u = true :=
  charsLE_trans s.data t.data u.data h1 h2

theorem rowLE_total (r1 r2 : Row) : rowLE r1 r2 = true ∨ rowLE r2 r1 = true := by
  unfold rowLE
  cases r1.identifier <;> cases r2.identifier
  · left; rfl
  · left; rfl
  · right; rfl
  · exact strLE_total _ _

theorem rowLE_trans (r1 r2 r3 : Row) (h1 : rowLE r1 r2 = true) (h2 : rowLE r2 r3 = true) :
    rowLE r1 r3 = true := by
  unfold rowLE at h1 h2 ⊢
  cases ha : r1.identifier <;> cases hb : r2.identifier <;> cases hc : r3.identifier <;>
    rw [ha, hb] at h1 <;> rw [hb, hc] at h2 <;> simp at h1 h2 ⊢
  exact strLE_trans _ _ _ h1 h2


theorem mem_insertRow (r x : Row) : ∀ l : List Row, x ∈ insertRow r l → x = r ∨ x ∈ l := by
  intro l
  induction l with
  | nil =>
    intro hx
    simp [insertRow] at hx
    exact Or.inl hx
  | cons y ys ih =>
    intro hx
    unfold insertRow at hx
    split at hx
    · rcases List.mem_cons.mp hx with h1 | h2
      · exact Or.inl h1
      · exact Or.inr h2
    · rcases List.mem_cons.mp hx with h1 | h2
      · exact Or.inr (h1 ▸ List.mem_cons_self _ _)
      · rcases ih h2 with h3 | h4
        · exact Or.inl h3
        · exact Or.inr (List.mem_cons_of_mem _ h4)

theorem insertRow_sorted (r : Row) : ∀ l : List Row, RowsSorted l → RowsSorted (insertRow r l) := by
  intro l
  induction l with
  | nil =>
    intro _
    exact List.pairwise_singleton _ r
  | cons x xs ih =>
    intro hl
    have hx : ∀ y ∈ xs, rowLE x y = true := fun y hy => List.rel_of_pairwise_cons hl hy
    have hxs : RowsSorted xs := List.Pairwise.of_cons hl
    unfold insertRow
    split
    next hcond =>
      refine List.Pairwise.cons ?_ hl
      intro y hy
      rcases List.mem_cons.mp hy with h1 | h2
      · subst h1; exact hcond
      · exact rowLE_trans r x y hcond (hx y h2)
    next hcond =>
      refine List.Pairwise.cons ?_ (ih hxs)
      intro y hy
      rcases mem_insertRow r y xs hy with h1 | h2
      · rw [h1]
        rcases rowLE_total r x with h3 | h4
        · exact absurd h3 hcond
        · exact h4
      · exact hx y h2

theorem sortRows_sorted : ∀ l : List Row, RowsSorted (sortRows l) := by
  intro l
  induction l with
  | nil => exact List.Pairwise.nil
  | cons r rs ih => exact insertRow_sorted r (sortRows rs) ih


theorem string_data_nil (s : String) (h : s.data = []) : s = "" := by
  cases s with
  | mk d => cases h; rfl

theorem rowLE_entryKey (r1 r2 : Row) (h : rowLE r1 r2 = true) :
    strLE (entryKey (rowToEntry r1)) (entryKey (rowToEntry r2)) = true := by
  unfold rowLE at h
  simp only [entryKey, rowToEntry, pyOptStr]
  cases h1 : r1.identifier with
  | none =>
    exact charsLE_nil_left _
  | some x =>
    cases h2 : r2.identifier with
    | none =>
      rw [h1, h2] at h
      simp at h
    | some y =>
      rw [h1, h2] at h
      have h3 : strLE (termStr x) (termStr y) = true := h
      show strLE ((if termStr x = "" then none else some (termStr x)).getD "")
          ((if termStr y = "" then none else some (termStr y)).getD "") = true
      by_cases hx : termStr x = ""
      · rw [if_pos hx]
        exact charsLE_nil_left _
      · rw [if_neg hx]
        by_cases hy : termStr y = ""
        · exfalso
          rw [hy] at h3
          exact hx (string_data_nil _ (charsLE_nil_right _ h3))
        · rw [if_neg hy]
          simp only [Option.getD_some]
          exact h3

/-! ### Query helper lemmas -/

theorem hasTriple_false (g : Graph) (a p o : Term)
    (h : ∀ t ∈ g, ¬ (t.pred = p ∧ t.obj = o)) : hasTriple g a p o = false := by
  unfold hasTriple
  rw [List.any_eq_false]
  intro t ht
  rcases not_and_or.mp (h t ht) with hp | ho
  · simp [beq_eq_false_iff_ne.mpr hp]
  · simp [beq_eq_false_iff_ne.mpr ho]

theorem get_all_artworks_empty_of_filterOk (g : Graph) (f : Filters) (s : Option String)
    (limit skip : Nat) (hf : ∀ a, filterOk g f a = false) :
    get_all_artworks g (some f) s limit skip = [] := by
  simp only [get_all_artworks]
  have hm : (artworkNodes g).filter (fun a =>
      match some f with
      | none => true
      | some f => filterOk g f a) = [] := by
    apply List.filter_eq_nil_iff.mpr
    intro a _
    simp [hf a]
  rw [hm]
  simp [sortRows, List.drop_nil, List.take_nil]

/-! ### The claims -/

/-- Claim C1: a record missing the required `dc:identifier` is skipped before
any Store mutation (the function returns `False` with the state untouched),
the error counter grows by one, the artwork count of the Store is unchanged,
and the batch continues with the remaining records exactly as if the bad
record were absent. -/
theorem claim_C1 (st : ImporterState) (r : RawRecord) (rs : List RawRecord)
    (h : getText r.identifier = "") :
    parse_edm_cho st r = ({ success := false }, st) ∧
    typeCount (crm "E22_Man_Made_Object") ((parse_edm_cho st r).2).graph =
      typeCount (crm "E22_Man_Made_Object") st.graph ∧
    (import_edm_xml st (r :: rs)).1.imported = (import_edm_xml st rs).1.imported ∧
    (import_edm_xml st (r :: rs)).1.errors = (import_edm_xml st rs).1.errors + 1 ∧
    (import_edm_xml st (r :: rs)).2 = (import_edm_xml st rs).2 := by
  have hp := parse_edm_cho_skip st r h
  refine ⟨hp, by rw [hp], ?_, ?_, ?_⟩ <;>
    simp [import_edm_xml, importGo_cons_skip st r rs h]

/-- Witness for C1 at a concrete record with no identifier. -/
theorem claim_C1_witness :
    getText emptyRecord.identifier = "" ∧
    (parse_edm_cho freshState emptyRecord = ({ success := false }, freshState) ∧
     typeCount (crm "E22_Man_Made_Object") ((parse_edm_cho freshState emptyRecord).2).graph =
       typeCount (crm "E22_Man_Made_Object") freshState.graph ∧
     (import_edm_xml freshState [emptyRecord]).1.imported =
       (import_edm_xml freshState []).1.imported ∧
     (import_edm_xml freshState [emptyRecord]).1.errors =
       (import_edm_xml freshState []).1.errors + 1 ∧
     (import_edm_xml freshState [emptyRecord]).2 = (import_edm_xml freshState []).2) :=
  ⟨by decide, claim_C1 freshState emptyRecord [] (by decide)⟩

/-- Claim C2: within one importer instance, a second record with the same
creator and spatial values reuses the previously minted Agent and Location
ids — the caches gain no new entry and no new `E21_Person` or `E53_Place`
node is committed — while a distinct new ArtisticWork id and a distinct new
ProvenanceEvent id are minted for the second record. -/
theorem claim_C2 (st0 : ImporterState) (r1 r2 : RawRecord)
    (h1 : ¬ getText r1.identifier = "") (h2 : ¬ getText r2.identifier = "")
    (hc : getText r2.creator = getText r1.creator)
    (hs : getText r2.spatial = getText r1.spatial) :
    (parse_edm_cho (parse_edm_cho st0 r1).2 r2).1.artistUri =
      (parse_edm_cho st0 r1).1.artistUri ∧
    (parse_edm_cho (parse_edm_cho st0 r1).2 r2).1.locationUri =
      (parse_edm_cho st0 r1).1.locationUri ∧
    (parse_edm_cho st0 r1).1.artistUri.isSome = true ∧
    (parse_edm_cho st0 r1).1.artworkUri.isSome = true ∧
    (parse_edm_cho (parse_edm_cho st0 r1).2 r2).1.artworkUri.isSome = true ∧
    (parse_edm_cho st0 r1).1.artworkUri ≠
      (parse_edm_cho (parse_edm_cho st0 r1).2 r2).1.artworkUri ∧
    (parse_edm_cho st0 r1).1.eventUri.isSome = true ∧
    (parse_edm_cho (parse_edm_cho st0 r1).2 r2).1.eventUri.isSome = true ∧
    (parse_edm_cho st0 r1).1.eventUri ≠
      (parse_edm_cho (parse_edm_cho st0 r1).2 r2).1.eventUri ∧
    ((parse_edm_cho (parse_edm_cho st0 r1).2 r2).2).created_artists =
      ((parse_edm_cho st0 r1).2).created_artists ∧
    ((parse_edm_cho (parse_edm_cho st0 r1).2 r2).2).created_locations =
      ((parse_edm_cho st0 r1).2).created_locations ∧
    typeCount (crm "E21_Person") ((parse_edm_cho (parse_edm_cho st0 r1).2 r2).2).graph =
      typeCount (crm "E21_Person") ((parse_edm_cho st0 r1).2).graph ∧
    typeCount (crm "E53_Place") ((parse_edm_cho (parse_edm_cho st0 r1).2 r2).2).graph =
      typeCount (crm "E53_Place") ((parse_edm_cho st0 r1).2).graph := by
  obtain ⟨a1, l1, m1, k1, hS1, hA1, hL1, hM1, hW1, hE1, hk1, hC1, hKA1, hKL1, hKM1,
    hg1, hg2, hg3, hg4, hg5, hg6, hg7⟩ := parse_edm_cho_spec st0 r1 h1
  obtain ⟨a2, l2, m2, k2, hS2, hA2, hL2, hM2, hW2, hE2, hk2, hC2, hKA2, hKL2, hKM2,
    _, _, _, _, _, _, _⟩ := parse_edm_cho_spec (parse_edm_cho st0 r1).2 r2 h2
  obtain ⟨hitA, hitL, _⟩ := parse_edm_cho_hits (parse_edm_cho st0 r1).2 r2 h2
  have hA2u := hitA a1 (by rw [hc]; exact hKA1)
  have hL2u := hitL l1 (by rw [hs]; exact hKL1)
  have hkc : k1 < k2 := by
    have := hk2
    rw [hC1] at this
    omega
  refine ⟨?_, ?_, ?_, ?_, ?_, ?_, ?_, ?_, ?_, ?_, ?_, ?_, ?_⟩
  · rw [hA2u.1, hA1]
  · rw [hL2u.1, hL1]
  · rw [hA1]; rfl
  · rw [hW1]; rfl
  · rw [hW2]; rfl
  · rw [hW1, hW2]
    simp only [ne_eq, Option.some.injEq, Term.minted.injEq]
    intro hq
    omega
  · rw [hE1]; rfl
  · rw [hE2]; rfl
  · rw [hE1, hE2]
    simp only [ne_eq, Option.some.injEq, Term.minted.injEq]
    intro hq
    omega
  · exact hA2u.2.1
  · exact hL2u.2.1
  · exact hA2u.2.2
  · exact hL2u.2.2

/-- Witness for C2: scenario B, importing `INV-001` then `INV-002` with the
same creator and spatial values from a fresh importer. -/
theorem claim_C2_witness :
    (¬ getText recINV1.identifier = "") ∧ (¬ getText recINV2.identifier = "") ∧
    getText recINV2.creator = getText recINV1.creator ∧
    getText recINV2.spatial = getText recINV1.spatial ∧
    ((parse_edm_cho (parse_edm_cho freshState recINV1).2 recINV2).1.artistUri =
      (parse_edm_cho freshState recINV1).1.artistUri ∧
    (parse_edm_cho (parse_edm_cho freshState recINV1).2 recINV2).1.locationUri =
      (parse_edm_cho freshState recINV1).1.locationUri ∧
    (parse_edm_cho freshState recINV1).1.artistUri.isSome = true ∧
    (parse_edm_cho freshState recINV1).1.artworkUri.isSome = true ∧
    (parse_edm_cho (parse_edm_cho freshState recINV1).2 recINV2).1.artworkUri.isSome = true ∧
    (parse_edm_cho freshState recINV1).1.artworkUri ≠
      (parse_edm_cho (parse_edm_cho freshState recINV1).2 recINV2).1.artworkUri ∧
    (parse_edm_cho freshState recINV1).1.eventUri.isSome = true ∧
    (parse_edm_cho (parse_edm_cho freshState recINV1).2 recINV2).1.eventUri.isSome = true ∧
    (parse_edm_cho freshState recINV1).1.eventUri ≠
      (parse_edm_cho (parse_edm_cho freshState recINV1).2 recINV2).1.eventUri ∧
    ((parse_edm_cho (parse_edm_cho freshState recINV1).2 recINV2).2).created_artists =
      ((parse_edm_cho freshState recINV1).2).created_artists ∧
    ((parse_edm_cho (parse_edm_cho freshState recINV1).2 recINV2).2).created_locations =
      ((parse_edm_cho freshState recINV1).2).created_locations ∧
    typeCount (crm "E21_Person")
        ((parse_edm_cho (parse_edm_cho freshState recINV1).2 recINV2).2).graph =
      typeCount (crm "E21_Person") ((parse_edm_cho freshState recINV1).2).graph ∧
    typeCount (crm "E53_Place")
        ((parse_edm_cho (parse_edm_cho freshState recINV1).2 recINV2).2).graph =
      typeCount (crm "E53_Place") ((parse_edm_cho freshState recINV1).2).graph) :=
  ⟨by decide, by decide, by decide, by decide,
   claim_C2 freshState recINV1 recINV2 (by decide) (by decide) (by decide) (by decide)⟩

set_option maxRecDepth 100000 in
/-- Claim C3, evaluated at the failing input: the claim says two records with
different first spatial name variants map to different Location ids, but the
code passes the joined text string where a list is expected, so the cache key
is `location_names[0]` — the first character.  `"Bucharest"` and `"Brasov"`
differ as name variants yet both key on `"B"` and collapse onto one Location
id. -/
theorem claim_C3_eval :
    "Bucharest" ≠ "Brasov" ∧
    locIndexZero (LocVal.strVal (getText recBucharest.spatial)) = "B" ∧
    locIndexZero (LocVal.strVal (getText recBrasov.spatial)) = "B" ∧
    (parse_edm_cho freshState recBucharest).1.locationUri =
      some (Term.minted "location" 1) ∧
    (parse_edm_cho (parse_edm_cho freshState recBucharest).2 recBrasov).1.locationUri =
      some (Term.minted "location" 1) := by decide

set_option maxRecDepth 100000 in
/-- Claim C4: the type filter `"painting"` expands through the static
bilingual keyword table and matches stored labels by case-insensitive
containment: it matches `"Ulei pe pânză"` (via the keyword `ulei`) and does
not match `"Daguerreotype"`; a list query over a store holding one artwork of
each label returns exactly the `"Ulei pe pânză"` one. -/
theorem claim_C4 :
    findKey "painting" TYPE_KEYWORDS =
      some ["pictură", "pictura", "painting", "ulei", "oil", "pânză", "panza", "canvas"] ∧
    typeFilterMatch "painting" "Ulei pe pânză" = true ∧
    typeFilterMatch "painting" "Daguerreotype" = false ∧
    get_all_artworks typedGraph (some { type := some "painting" }) none 20 0 =
      [⟨"4", "http://arp-greatteam.org/heritage-provenance/artwork/4",
        some "INV-100", none, none⟩] := by decide

/-- Claim C5: a list query filtered by a material id — or a subject, artist or
location id — that matches no artwork in the graph returns the empty sequence;
the function is total, so no error is raised. -/
theorem claim_C5 (g : Graph) (m s ar lo : Term) (limit skip : Nat)
    (hm : ∀ t ∈ g, ¬ (t.pred = crm "P45_consists_of" ∧ t.obj = m))
    (hs : ∀ t ∈ g, ¬ (t.pred = crm "P15_was_influenced_by" ∧ t.obj = s))
    (har : ∀ t ∈ g, ¬ (t.pred = crm "P14_carried_out_by" ∧ t.obj = ar))
    (hlo : ∀ t ∈ g, ¬ (t.pred = crm "P7_took_place_at" ∧ t.obj = lo)) :
    get_all_artworks g (some { material_uri := some m }) none limit skip = [] ∧
    get_all_artworks g (some { subject_uri := some s }) none limit skip = [] ∧
    get_all_artworks g (some { artist_uri := some ar }) none limit skip = [] ∧
    get_all_artworks g (some { location_uri := some lo }) none limit skip = [] := by
  refine ⟨?_, ?_, ?_, ?_⟩ <;> apply get_all_artworks_empty_of_filterOk <;> intro a
  · simp only [filterOk]
    rw [hasTriple_false g a _ _ hm]
    simp
  · simp only [filterOk]
    rw [hasTriple_false g a _ _ hs]
    simp
  · simp only [filterOk]
    have hany : (g.any (fun t => t.pred == crm "P108_has_produced" && t.obj == a &&
        hasTriple g t.subj (crm "P14_carried_out_by") ar)) = false := by
      rw [List.any_eq_false]
      intro t _
      rw [hasTriple_false g t.subj _ _ har]
      simp
    rw [hany]
    simp
  · simp only [filterOk]
    have hany : (g.any (fun t => t.pred == crm "P108_has_produced" && t.obj == a &&
        hasTriple g t.subj (crm "P7_took_place_at") lo)) = false := by
      rw [List.any_eq_false]
      intro t _
      rw [hasTriple_false g t.subj _ _ hlo]
      simp
    rw [hany]
    simp

set_option maxRecDepth 100000 in
/-- Witness for C5 over the five-artwork store, with ids that occur nowhere. -/
theorem claim_C5_witness :
    (∀ t ∈ fiveGraph, ¬ (t.pred = crm "P45_consists_of" ∧ t.obj = Term.uri "urn:none")) ∧
    (∀ t ∈ fiveGraph, ¬ (t.pred = crm "P15_was_influenced_by" ∧ t.obj = Term.uri "urn:none")) ∧
    (∀ t ∈ fiveGraph, ¬ (t.pred = crm "P14_carried_out_by" ∧ t.obj = Term.uri "urn:none")) ∧
    (∀ t ∈ fiveGraph, ¬ (t.pred = crm "P7_took_place_at" ∧ t.obj = Term.uri "urn:none")) ∧
    (get_all_artworks fiveGraph (some { material_uri := some (Term.uri "urn:none") }) none 20 0 = [] ∧
     get_all_artworks fiveGraph (some { subject_uri := some (Term.uri "urn:none") }) none 20 0 = [] ∧
     get_all_artworks fiveGraph (some { artist_uri := some (Term.uri "urn:none") }) none 20 0 = [] ∧
     get_all_artworks fiveGraph (some { location_uri := some (Term.uri "urn:none") }) none 20 0 = []) :=
  ⟨by decide, by decide, by decide, by decide,
   claim_C5 fiveGraph (Term.uri "urn:none") (Term.uri "urn:none") (Term.uri "urn:none")
     (Term.uri "urn:none") 20 0 (by decide) (by decide) (by decide) (by decide)⟩

set_option maxRecDepth 100000 in
/-- Claim C6: every list query returns at most `limit` rows, ordered by the
identifier string in codepoint-lexicographic order; concretely, a filtered
query with `limit = 2` over five matching artworks returns exactly the two
lexicographically first rows. -/
theorem claim_C6 :
    (∀ (g : Graph) (f : Option Filters) (s : Option String) (limit skip : Nat),
      (get_all_artworks g f s limit skip).length ≤ limit) ∧
    (∀ (g : Graph) (f : Option Filters) (s : Option String) (limit skip : Nat),
      (get_all_artworks g f s limit skip).Pairwise
        (fun e1 e2 => strLE (entryKey e1) (entryKey e2) = true)) ∧
    get_all_artworks fiveGraph (some { material_uri := some (Term.minted "attributes" 3) })
        none 2 0 =
      [⟨"4", "http://arp-greatteam.org/heritage-provenance/artwork/4", some "A", none, none⟩,
       ⟨"6", "http://arp-greatteam.org/heritage-provenance/artwork/6", some "B", none, none⟩] ∧
    (get_all_artworks fiveGraph (some { material_uri := some (Term.minted "attributes" 3) })
        none 20 0).length = 5 := by
  refine ⟨?_, ?_, by decide, by decide⟩
  · intro g f s limit skip
    simp only [get_all_artworks, List.length_map, List.length_take]
    exact min_le_left _ _
  · intro g f s limit skip
    simp only [get_all_artworks]
    apply List.Pairwise.map _ (fun a b => rowLE_entryKey a b)
    apply List.Pairwise.sublist
      ((List.take_sublist _ _).trans (List.drop_sublist _ _))
    exact sortRows_sorted _

/-- Claim C7: for every record with the required identifier, a creation
ProvenanceEvent is minted exactly when both an Agent id and a Location id were
resolved; when minted, the event statements link work, agent, location and
date, and the ArtisticWork statement exists in any case. -/
theorem claim_C7 (st : ImporterState) (r : RawRecord) (h : ¬ getText r.identifier = "") :
    ((parse_edm_cho st r).1.eventUri.isSome = true ↔
      ((parse_edm_cho st r).1.artistUri.isSome = true ∧
       (parse_edm_cho st r).1.locationUri.isSome = true)) ∧
    (∀ ev aw a lo : Term,
      (parse_edm_cho st r).1.eventUri = some ev →
      (parse_edm_cho st r).1.artworkUri = some aw →
      (parse_edm_cho st r).1.artistUri = some a →
      (parse_edm_cho st r).1.locationUri = some lo →
      (⟨ev, rdfType, crm "E12_Production"⟩ : Triple) ∈ ((parse_edm_cho st r).2).graph ∧
      (⟨ev, rdfsLabel, Term.lit "creation"⟩ : Triple) ∈ ((parse_edm_cho st r).2).graph ∧
      (⟨ev, crm "P108_has_produced", aw⟩ : Triple) ∈ ((parse_edm_cho st r).2).graph ∧
      (⟨ev, crm "P14_carried_out_by", a⟩ : Triple) ∈ ((parse_edm_cho st r).2).graph ∧
      (⟨ev, crm "P7_took_place_at", lo⟩ : Triple) ∈ ((parse_edm_cho st r).2).graph ∧
      (⟨ev, crm "P4_has_time_span", Term.lit (getText r.created)⟩ : Triple)
        ∈ ((parse_edm_cho st r).2).graph) ∧
    (∀ aw : Term, (parse_edm_cho st r).1.artworkUri = some aw →
      (⟨aw, rdfType, crm "E22_Man_Made_Object"⟩ : Triple) ∈ ((parse_edm_cho st r).2).graph) := by
  obtain ⟨a1, l1, m1, k1, hS1, hA1, hL1, hM1, hW1, hE1, hk1, hC1, hKA1, hKL1, hKM1,
    hg1, hg2, hg3, hg4, hg5, hg6, hg7⟩ := parse_edm_cho_spec st r h
  refine ⟨?_, ?_, ?_⟩
  · rw [hE1, hA1, hL1]
    simp
  · intro ev aw a lo he hw ha hlo
    rw [hE1] at he
    rw [hW1] at hw
    rw [hA1] at ha
    rw [hL1] at hlo
    injection he with he
    injection hw with hw
    injection ha with ha
    injection hlo with hlo
    subst he
    subst hw
    subst ha
    subst hlo
    exact ⟨hg2, hg3, hg6, hg4, hg5, hg7⟩
  · intro aw hw
    rw [hW1] at hw
    injection hw with hw
    subst hw
    exact hg1

/-- Witness for C7 at the scenario A record. -/
theorem claim_C7_witness :
    (¬ getText recINV1.identifier = "") ∧
    (((parse_edm_cho freshState recINV1).1.eventUri.isSome = true ↔
      ((parse_edm_cho freshState recINV1).1.artistUri.isSome = true ∧
       (parse_edm_cho freshState recINV1).1.locationUri.isSome = true)) ∧
    (∀ ev aw a lo : Term,
      (parse_edm_cho freshState recINV1).1.eventUri = some ev →
      (parse_edm_cho freshState recINV1).1.artworkUri = some aw →
      (parse_edm_cho freshState recINV1).1.artistUri = some a →
      (parse_edm_cho freshState recINV1).1.locationUri = some lo →
      (⟨ev, rdfType, crm "E12_Production"⟩ : Triple) ∈ ((parse_edm_cho freshState recINV1).2).graph ∧
      (⟨ev, rdfsLabel, Term.lit "creation"⟩ : Triple) ∈ ((parse_edm_cho freshState recINV1).2).graph ∧
      (⟨ev, crm "P108_has_produced", aw⟩ : Triple) ∈ ((parse_edm_cho freshState recINV1).2).graph ∧
      (⟨ev, crm "P14_carried_out_by", a⟩ : Triple) ∈ ((parse_edm_cho freshState recINV1).2).graph ∧
      (⟨ev, crm "P7_took_place_at", lo⟩ : Triple) ∈ ((parse_edm_cho freshState recINV1).2).graph ∧
      (⟨ev, crm "P4_has_time_span", Term.lit (getText recINV1.created)⟩ : Triple)
        ∈ ((parse_edm_cho freshState recINV1).2).graph) ∧
    (∀ aw : Term, (parse_edm_cho freshState recINV1).1.artworkUri = some aw →
      (⟨aw, rdfType, crm "E22_Man_Made_Object"⟩ : Triple)
        ∈ ((parse_edm_cho freshState recINV1).2).graph)) :=
  ⟨by decide, claim_C7 freshState recINV1 (by decide)⟩

/-- Claim C8: records with blank creator names all resolve to the sentinel
`"Unknown Artist"`, which is itself the cache key, so they share one Agent id;
blank location names share the one `"Unknown Location"` node, and blank
attribute names share one `"Unknown"` node per `(name, link)` key. -/
theorem claim_C8 (st0 : ImporterState) (r1 r2 : RawRecord)
    (h1 : ¬ getText r1.identifier = "") (h2 : ¬ getText r2.identifier = "")
    (hc1 : getText r1.creator = "") (hc2 : getText r2.creator = "")
    (hs1 : getText r1.spatial = "") (hs2 : getText r2.spatial = "")
    (hm1 : getText r1.mediumTexts = "") (hm2 : getText r2.mediumTexts = "")
    (hml : r2.mediumLink = r1.mediumLink) :
    (parse_edm_cho (parse_edm_cho st0 r1).2 r2).1.artistUri =
      (parse_edm_cho st0 r1).1.artistUri ∧
    findKey "Unknown Artist" ((parse_edm_cho st0 r1).2).created_artists =
      (parse_edm_cho st0 r1).1.artistUri ∧
    (parse_edm_cho (parse_edm_cho st0 r1).2 r2).1.locationUri =
      (parse_edm_cho st0 r1).1.locationUri ∧
    findKey "Unknown Location" ((parse_edm_cho st0 r1).2).created_locations =
      (parse_edm_cho st0 r1).1.locationUri ∧
    (parse_edm_cho (parse_edm_cho st0 r1).2 r2).1.materialUri =
      (parse_edm_cho st0 r1).1.materialUri ∧
    findKey ("Unknown", r1.mediumLink) ((parse_edm_cho st0 r1).2).created_entities =
      (parse_edm_cho st0 r1).1.materialUri := by
  obtain ⟨a1, l1, m1, k1, hS1, hA1, hL1, hM1, hW1, hE1, hk1, hC1, hKA1, hKL1, hKM1,
    hg1, hg2, hg3, hg4, hg5, hg6, hg7⟩ := parse_edm_cho_spec st0 r1 h1
  obtain ⟨hitA, hitL, hitM⟩ := parse_edm_cho_hits (parse_edm_cho st0 r1).2 r2 h2
  have hkeyA1 : (if getText r1.creator = "" then "Unknown Artist" else getText r1.creator) =
      "Unknown Artist" := by rw [hc1]; rfl
  have hkeyA2 : (if getText r2.creator = "" then "Unknown Artist" else getText r2.creator) =
      "Unknown Artist" := by rw [hc2]; rfl
  have hkeyL1 : locIndexZero (if locFalsy (.strVal (getText r1.spatial))
      then .listVal ["Unknown Location"] else .strVal (getText r1.spatial)) =
      "Unknown Location" := by rw [hs1]; rfl
  have hkeyL2 : locIndexZero (if locFalsy (.strVal (getText r2.spatial))
      then .listVal ["Unknown Location"] else .strVal (getText r2.spatial)) =
      "Unknown Location" := by rw [hs2]; rfl
  have hkeyM1 : (if getText r1.mediumTexts = "" then "Unknown" else getText r1.mediumTexts) =
      "Unknown" := by rw [hm1]; rfl
  have hkeyM2 : (if getText r2.mediumTexts = "" then "Unknown" else getText r2.mediumTexts) =
      "Unknown" := by rw [hm2]; rfl
  rw [hkeyA1] at hKA1
  rw [hkeyL1] at hKL1
  rw [hkeyM1] at hKM1
  have hA2u := hitA a1 (by rw [hkeyA2]; exact hKA1)
  have hL2u := hitL l1 (by rw [hkeyL2]; exact hKL1)
  have hM2u := hitM m1 (by rw [hkeyM2, hml]; exact hKM1)
  refine ⟨?_, ?_, ?_, ?_, ?_, ?_⟩
  · rw [hA2u.1, hA1]
  · rw [hA1]; exact hKA1
  · rw [hL2u.1, hL1]
  · rw [hL1]; exact hKL1
  · rw [hM2u, hM1]
  · rw [hM1]; exact hKM1

/-- Witness for C8 at two records with blank creator, spatial and material. -/
theorem claim_C8_witness :
    (¬ getText recBlank1.identifier = "") ∧ (¬ getText recBlank2.identifier = "") ∧
    getText recBlank1.creator = "" ∧ getText recBlank2.creator = "" ∧
    getText recBlank1.spatial = "" ∧ getText recBlank2.spatial = "" ∧
    getText recBlank1.mediumTexts = "" ∧ getText recBlank2.mediumTexts = "" ∧
    recBlank2.mediumLink = recBlank1.mediumLink ∧
    ((parse_edm_cho (parse_edm_cho freshState recBlank1).2 recBlank2).1.artistUri =
      (parse_edm_cho freshState recBlank1).1.artistUri ∧
    findKey "Unknown Artist" ((parse_edm_cho freshState recBlank1).2).created_artists =
      (parse_edm_cho freshState recBlank1).1.artistUri ∧
    (parse_edm_cho (parse_edm_cho freshState recBlank1).2 recBlank2).1.locationUri =
      (parse_edm_cho freshState recBlank1).1.locationUri ∧
    findKey "Unknown Location" ((parse_edm_cho freshState recBlank1).2).created_locations =
      (parse_edm_cho freshState recBlank1).1.locationUri ∧
    (parse_edm_cho (parse_edm_cho freshState recBlank1).2 recBlank2).1.materialUri =
      (parse_edm_cho freshState recBlank1).1.materialUri ∧
    findKey ("Unknown", recBlank1.mediumLink)
        ((parse_edm_cho freshState recBlank1).2).created_entities =
      (parse_edm_cho freshState recBlank1).1.materialUri) :=
  ⟨by decide, by decide, by decide, by decide, by decide, by decide, by decide, by decide,
   by decide,
   claim_C8 freshState recBlank1 recBlank2 (by decide) (by decide) (by decide) (by decide)
     (by decide) (by decide) (by decide) (by decide) (by decide)⟩

/-- Counterexample to C9 as stated: with the data directory missing, the bulk
load returns normally with the store unchanged — no error propagates to the
caller. -/
theorem claim_C9_counterexample :
    load_data_files none ([] : Graph) = Except.ok ([] : Graph) ∧
    exceptOk (load_data_files none ([] : Graph)) = true :=
  ⟨rfl, rfl⟩

/-- Claim C9 as amended: a missing data directory is not fatal —
`load_data_files` logs a warning and returns with the graph unchanged and no
error propagates — while a file whose parse fails inside an existing directory
is skipped and the load continues with the remaining files. -/
theorem claim_C9 (g : Graph) (fs1 fs2 : List DataFile) (nm msg : String) :
    load_data_files none g = Except.ok g ∧
    load_data_files (some (fs1 ++ (⟨nm, ParsedFile.err msg⟩ : DataFile) :: fs2)) g =
      load_data_files (some (fs1 ++ fs2)) g := by
  constructor
  · rfl
  · simp only [load_data_files, List.foldl_append, List.foldl_cons]

/-- Claim C10: `add_provenance_event` is not atomic — when the provider or
institute reference is absent the function reports failure, yet the type tags,
label, carried-out-by, took-place-at, has-produced and time-span statements
already added remain committed in the graph, together with everything that was
there before. -/
theorem claim_C10 (g : Graph) (ev : Term) (d : EventData)
    (h : d.provider_uri = none ∨ d.institute_uri = none) :
    (add_provenance_event g ev d).1 = false ∧
    (⟨ev, rdfType, provT "Activity"⟩ : Triple) ∈ (add_provenance_event g ev d).2 ∧
    (⟨ev, rdfType, crm "E12_Production"⟩ : Triple) ∈ (add_provenance_event g ev d).2 ∧
    (⟨ev, rdfsLabel, Term.lit d.kind⟩ : Triple) ∈ (add_provenance_event g ev d).2 ∧
    (⟨ev, crm "P14_carried_out_by", d.artist_uri⟩ : Triple) ∈ (add_provenance_event g ev d).2 ∧
    (⟨ev, crm "P7_took_place_at", d.location_uri⟩ : Triple) ∈ (add_provenance_event g ev d).2 ∧
    (⟨ev, crm "P108_has_produced", d.artwork_uri⟩ : Triple) ∈ (add_provenance_event g ev d).2 ∧
    (⟨ev, crm "P4_has_time_span", Term.lit d.date⟩ : Triple) ∈ (add_provenance_event g ev d).2 ∧
    (∀ t ∈ g, t ∈ (add_provenance_event g ev d).2) := by
  have hcore := add_provenance_event_core g ev d
  refine ⟨?_, hcore.1, hcore.2.1, hcore.2.2.1, hcore.2.2.2.1, hcore.2.2.2.2.1,
    hcore.2.2.2.2.2.1, hcore.2.2.2.2.2.2,
    fun t ht => add_provenance_event_sub g ev d t ht⟩
  rcases h with hp | hi
  · simp only [add_provenance_event, hp]
  · cases hps : d.provider_uri with
    | none => simp only [add_provenance_event, hps]
    | some p => simp only [add_provenance_event, hps, hi]

/-- Witness for C10: event data without provider and institute references,
added to an empty graph. -/
theorem claim_C10_witness :
    (evDataNoProv.provider_uri = none ∨ evDataNoProv.institute_uri = none) ∧
    ((add_provenance_event [] (Term.minted "event" 0) evDataNoProv).1 = false ∧
    (⟨Term.minted "event" 0, rdfType, provT "Activity"⟩ : Triple)
      ∈ (add_provenance_event [] (Term.minted "event" 0) evDataNoProv).2 ∧
    (⟨Term.minted "event" 0, rdfType, crm "E12_Production"⟩ : Triple)
      ∈ (add_provenance_event [] (Term.minted "event" 0) evDataNoProv).2 ∧
    (⟨Term.minted "event" 0, rdfsLabel, Term.lit evDataNoProv.kind⟩ : Triple)
      ∈ (add_provenance_event [] (Term.minted "event" 0) evDataNoProv).2 ∧
    (⟨Term.minted "event" 0, crm "P14_carried_out_by", evDataNoProv.artist_uri⟩ : Triple)
      ∈ (add_provenance_event [] (Term.minted "event" 0) evDataNoProv).2 ∧
    (⟨Term.minted "event" 0, crm "P7_took_place_at", evDataNoProv.location_uri⟩ : Triple)
      ∈ (add_provenance_event [] (Term.minted "event" 0) evDataNoProv).2 ∧
    (⟨Term.minted "event" 0, crm "P108_has_produced", evDataNoProv.artwork_uri⟩ : Triple)
      ∈ (add_provenance_event [] (Term.minted "event" 0) evDataNoProv).2 ∧
    (⟨Term.minted "event" 0, crm "P4_has_time_span", Term.lit evDataNoProv.date⟩ : Triple)
      ∈ (add_provenance_event [] (Term.minted "event" 0) evDataNoProv).2 ∧
    (∀ t ∈ ([] : Graph), t ∈ (add_provenance_event [] (Term.minted "event" 0) evDataNoProv).2)) :=
  ⟨Or.inl rfl, claim_C10 [] (Term.minted "event" 0) evDataNoProv (Or.inl rfl)⟩

end ArtworkProvenance
